import Mathlib

/-!
Verification development for the data-contract suite manager.

Shallow embedding of the repository's core modules:
* `src/src/expectations.py` — the pydantic rule model (`GreatExpectation`,
  `ExpectationWithMetadata`, `GreatExpectationsSuite`);
* `src/src/expectation_manager.py` — conversion between the pydantic model and
  the Great Expectations native configuration objects, suite validation and
  serialization;
* `src/src/gx_utils.py` — the validation-result analyzer;
* `src/src/gx_promt_utils.py` — the prompt-generation interface.

Python floats are modelled as `Rat` (the programs only store, compare and sort
these values; no float arithmetic is performed), Python ints as `Int`, and
generic Python values (JSON/YAML documents, kwargs, raw validation payloads)
as the inductive `PyVal`.  Fallible Python code (pydantic validation,
conversion, the analyzer's attribute accesses) is modelled in `Except String`.
-/

/-- A Python numeric value as stored in a `Union[int, float]` field. -/
inductive PyNum where
  | int (n : Int)
  | float (q : Rat)
deriving DecidableEq, Repr

/-- An element of a `value_set : List[Union[str, int, float]]` field. -/
inductive SetVal where
  | str (s : String)
  | int (n : Int)
  | float (q : Rat)
deriving DecidableEq, Repr

/--
The pydantic expectation models of `src/src/expectations.py`, one constructor
per model class, fields in declaration order (the `expectation_type` literal
tag is derivable from the constructor and is produced by
`GreatExpectation.expectation_type`).  The constructor
`expectCompoundColumnsToBeUnique` corresponds to the class
`ExpectCompoundColumnsToBeUnique`, which is defined in the module but absent
from the `GreatExpectation` union type (see `GreatExpectation.inUnion`).
-/
inductive GreatExpectation where
  | expectColumnToExist (column : String)
  | expectColumnValuesToNotBeNull (column : String) (mostly : Option Rat)
  | expectColumnValuesToBeUnique (column : String) (mostly : Option Rat)
  | expectCompoundColumnsToBeUnique (column_list : List String)
  | expectColumnValuesToBeInSet (column : String) (value_set : List SetVal) (mostly : Option Rat)
  | expectColumnValuesToMatchRegex (column : String) (regex : String) (mostly : Option Rat)
  | expectColumnValuesToBeBetween (column : String) (min_value max_value : Option PyNum)
      (mostly : Option Rat)
  | expectColumnValuesToBeOfType (column : String) (type_ : String)
  | expectColumnMeanToBeBetween (column : String) (min_value max_value : Option PyNum)
  | expectTableRowCountToBeBetween (min_value max_value : Option Int)
  | expectColumnMinToBeBetween (column : String) (min_value max_value : Option PyNum)
  | expectColumnMaxToBeBetween (column : String) (min_value max_value : Option PyNum)
  | expectColumnSumToBeBetween (column : String) (min_value max_value : Option PyNum)
deriving DecidableEq, Repr

/-- The `expectation_type` literal tag of each model class. -/
def GreatExpectation.expectation_type : GreatExpectation → String
  | .expectColumnToExist _ => "expect_column_to_exist"
  | .expectColumnValuesToNotBeNull _ _ => "expect_column_values_to_not_be_null"
  | .expectColumnValuesToBeUnique _ _ => "expect_column_values_to_be_unique"
  | .expectCompoundColumnsToBeUnique _ => "expect_compound_columns_to_be_unique"
  | .expectColumnValuesToBeInSet _ _ _ => "expect_column_values_to_be_in_set"
  | .expectColumnValuesToMatchRegex _ _ _ => "expect_column_values_to_match_regex"
  | .expectColumnValuesToBeBetween _ _ _ _ => "expect_column_values_to_be_between"
  | .expectColumnValuesToBeOfType _ _ => "expect_column_values_to_be_of_type"
  | .expectColumnMeanToBeBetween _ _ _ => "expect_column_mean_to_be_between"
  | .expectTableRowCountToBeBetween _ _ => "expect_table_row_count_to_be_between"
  | .expectColumnMinToBeBetween _ _ _ => "expect_column_min_to_be_between"
  | .expectColumnMaxToBeBetween _ _ _ => "expect_column_max_to_be_between"
  | .expectColumnSumToBeBetween _ _ _ => "expect_column_sum_to_be_between"

/-- The range constraint `ge=0.0, le=1.0` on an optional `mostly` field
(`None` is accepted by pydantic since the field is `Optional`). -/
def mostlyOk : Option Rat → Bool
  | none => true
  | some q => decide (0 ≤ q) && decide (q ≤ 1)

/--
The construction-time invariants enforced by pydantic on each model:
the field-level range constraint on `mostly` and the `at_least_one_bound`
model validator of the six ranged kinds.
-/
def GreatExpectation.wfb : GreatExpectation → Bool
  | .expectColumnToExist _ => true
  | .expectColumnValuesToNotBeNull _ mostly => mostlyOk mostly
  | .expectColumnValuesToBeUnique _ mostly => mostlyOk mostly
  | .expectCompoundColumnsToBeUnique _ => true
  | .expectColumnValuesToBeInSet _ _ mostly => mostlyOk mostly
  | .expectColumnValuesToMatchRegex _ _ mostly => mostlyOk mostly
  | .expectColumnValuesToBeBetween _ mn mx mostly =>
      mostlyOk mostly && (mn.isSome || mx.isSome)
  | .expectColumnValuesToBeOfType _ _ => true
  | .expectColumnMeanToBeBetween _ mn mx => mn.isSome || mx.isSome
  | .expectTableRowCountToBeBetween mn mx => mn.isSome || mx.isSome
  | .expectColumnMinToBeBetween _ mn mx => mn.isSome || mx.isSome
  | .expectColumnMaxToBeBetween _ mn mx => mn.isSome || mx.isSome
  | .expectColumnSumToBeBetween _ mn mx => mn.isSome || mx.isSome

/-- Membership in the `GreatExpectation` union type of `expectations.py`:
every model class except `ExpectCompoundColumnsToBeUnique` (and the
commented-out strftime class) is a union member. -/
def GreatExpectation.inUnion : GreatExpectation → Bool
  | .expectCompoundColumnsToBeUnique _ => false
  | _ => true

/-- The `severity` literal of `ExpectationWithMetadata`. -/
inductive Severity where
  | critical
  | warning
  | info
deriving DecidableEq, Repr

def Severity.toStr : Severity → String
  | .critical => "critical"
  | .warning => "warning"
  | .info => "info"

/-- `ExpectationWithMetadata` of `expectations.py`: a union-member expectation
together with `id`, `description`, `source` and a `severity` defaulting to
`critical`. -/
structure ExpectationWithMetadata where
  id : String
  expectation : GreatExpectation
  description : String
  source : String
  severity : Severity := .critical
deriving DecidableEq, Repr

/-- The pydantic invariants of an `ExpectationWithMetadata` instance: the
wrapped expectation is valid and is a member of the `GreatExpectation`
union (pydantic rejects `ExpectCompoundColumnsToBeUnique` here). -/
def ExpectationWithMetadata.wfb (e : ExpectationWithMetadata) : Bool :=
  e.expectation.wfb && e.expectation.inUnion

/-- `GreatExpectationsSuite` of `expectations.py`. -/
structure GreatExpectationsSuite where
  expectations : List ExpectationWithMetadata
deriving DecidableEq, Repr

def GreatExpectationsSuite.wfb (s : GreatExpectationsSuite) : Bool :=
  s.expectations.all (·.wfb)

/-- A generic Python value: the payloads, kwargs mappings and JSON/YAML
document trees the programs manipulate. -/
inductive PyVal where
  | null
  | bool (b : Bool)
  | int (n : Int)
  | float (q : Rat)
  | str (s : String)
  | list (xs : List PyVal)
  | obj (fields : List (String × PyVal))
deriving Repr

/-- Lookup in a string-keyed Python dict (our dict literals never repeat
keys, so first match is the dict entry). -/
def PyDict.get? (d : List (String × PyVal)) (k : String) : Option PyVal :=
  (d.find? (fun p => p.1 = k)).map (·.2)

def pyNumVal : PyNum → PyVal
  | .int n => .int n
  | .float q => .float q

def setValVal : SetVal → PyVal
  | .str s => .str s
  | .int n => .int n
  | .float q => .float q

def optNumVal : Option PyNum → PyVal
  | none => .null
  | some v => pyNumVal v

def optRatVal : Option Rat → PyVal
  | none => .null
  | some q => .float q

def optIntVal : Option Int → PyVal
  | none => .null
  | some n => .int n

/-- `model_dump()` of an expectation model: every declared field in
declaration order, `None`-valued optional fields included as `null`. -/
def GreatExpectation.model_dump : GreatExpectation → List (String × PyVal)
  | .expectColumnToExist column =>
      [("expectation_type", .str "expect_column_to_exist"), ("column", .str column)]
  | .expectColumnValuesToNotBeNull column mostly =>
      [("expectation_type", .str "expect_column_values_to_not_be_null"),
       ("column", .str column), ("mostly", optRatVal mostly)]
  | .expectColumnValuesToBeUnique column mostly =>
      [("expectation_type", .str "expect_column_values_to_be_unique"),
       ("column", .str column), ("mostly", optRatVal mostly)]
  | .expectCompoundColumnsToBeUnique column_list =>
      [("expectation_type", .str "expect_compound_columns_to_be_unique"),
       ("column_list", .list (column_list.map PyVal.str))]
  | .expectColumnValuesToBeInSet column value_set mostly =>
      [("expectation_type", .str "expect_column_values_to_be_in_set"),
       ("column", .str column), ("value_set", .list (value_set.map setValVal)),
       ("mostly", optRatVal mostly)]
  | .expectColumnValuesToMatchRegex column regex mostly =>
      [("expectation_type", .str "expect_column_values_to_match_regex"),
       ("column", .str column), ("regex", .str regex), ("mostly", optRatVal mostly)]
  | .expectColumnValuesToBeBetween column mn mx mostly =>
      [("expectation_type", .str "expect_column_values_to_be_between"),
       ("column", .str column), ("min_value", optNumVal mn), ("max_value", optNumVal mx),
       ("mostly", optRatVal mostly)]
  | .expectColumnValuesToBeOfType column t =>
      [("expectation_type", .str "expect_column_values_to_be_of_type"),
       ("column", .str column), ("type_", .str t)]
  | .expectColumnMeanToBeBetween column mn mx =>
      [("expectation_type", .str "expect_column_mean_to_be_between"),
       ("column", .str column), ("min_value", optNumVal mn), ("max_value", optNumVal mx)]
  | .expectTableRowCountToBeBetween mn mx =>
      [("expectation_type", .str "expect_table_row_count_to_be_between"),
       ("min_value", optIntVal mn), ("max_value", optIntVal mx)]
  | .expectColumnMinToBeBetween column mn mx =>
      [("expectation_type", .str "expect_column_min_to_be_between"),
       ("column", .str column), ("min_value", optNumVal mn), ("max_value", optNumVal mx)]
  | .expectColumnMaxToBeBetween column mn mx =>
      [("expectation_type", .str "expect_column_max_to_be_between"),
       ("column", .str column), ("min_value", optNumVal mn), ("max_value", optNumVal mx)]
  | .expectColumnSumToBeBetween column mn mx =>
      [("expectation_type", .str "expect_column_sum_to_be_between"),
       ("column", .str column), ("min_value", optNumVal mn), ("max_value", optNumVal mx)]

/-! ## Suite Converter (`src/src/expectation_manager.py`) -/

/-- The kwargs mapping of a native expectation configuration. -/
abbrev Kwargs := List (String × PyVal)

/-- The Great Expectations `FailureSeverity` enum consumed by the native
configuration constructor. -/
inductive FailureSeverity where
  | CRITICAL
  | WARNING
  | INFO
deriving DecidableEq, Repr

/-- A native `ExpectationConfiguration`: type tag, kwargs mapping, metadata
mapping and severity.  The metadata mapping carries the string values written
by the forward conversion. -/
structure ExpectationConfiguration where
  type : String
  kwargs : Kwargs
  meta : List (String × String)
  severity : FailureSeverity
deriving Repr

/-- The suite-level metadata written by `pydantic_to_gx_suite`. -/
structure SuiteMeta where
  created_by : String
  created_at : String
  total_expectations : Nat
deriving DecidableEq, Repr

/-- A native GX `ExpectationSuite`. -/
structure ExpectationSuite where
  name : String
  expectations : List ExpectationConfiguration
  meta : SuiteMeta
deriving Repr

/-- The kwargs extracted from a pydantic model by
`_pydantic_expectation_to_gx_config`: every dumped field except
`expectation_type` (`type_` is passed through under its own name). -/
def expectationKwargs (e : GreatExpectation) : Kwargs :=
  e.model_dump.filter (fun p => p.1 ≠ "expectation_type")

/-- The severity mapping of `_pydantic_expectation_to_gx_config`:
`warning → WARNING`, `info → INFO`, anything else → `CRITICAL`. -/
def severityToFailureSeverity : Severity → FailureSeverity
  | .warning => .WARNING
  | .info => .INFO
  | .critical => .CRITICAL

/-- `_pydantic_expectation_to_gx_config`. -/
def pydantic_expectation_to_gx_config (e : ExpectationWithMetadata) : ExpectationConfiguration :=
  { type := e.expectation.expectation_type
    kwargs := expectationKwargs e.expectation
    meta := [("expectation_id", e.id), ("description", e.description), ("source", e.source)]
    severity := severityToFailureSeverity e.severity }

/-- `pydantic_to_gx_suite`; the wall-clock timestamp used for the generated
suite name and the `created_at` metadata is passed in as `now`. -/
def pydantic_to_gx_suite (pydantic_suite : GreatExpectationsSuite)
    (suite_name : Option String) (now : String) : ExpectationSuite :=
  let gx_expectations := pydantic_suite.expectations.map pydantic_expectation_to_gx_config
  { name := suite_name.getD ("suite_" ++ now)
    expectations := gx_expectations
    meta := { created_by := "ExpectationManager", created_at := now
              total_expectations := gx_expectations.length } }

/-! ### pydantic field validation

`_create_pydantic_expectation` calls `pydantic_class(**model_data)`; the
following functions embed the per-field validation pydantic performs.  Numeric
fields accept ints and floats (an integral float coerces to an `int` field);
numeric-string coercion, which no caller of this code path exercises, is not
modelled.  Extra keys are ignored, matching the default pydantic config. -/

/-- Element-wise validation of a list, aborting on the first failure (the
order pydantic and a Python `for` loop validate list elements in). -/
def exceptMapList {α β : Type} (f : α → Except String β) : List α → Except String (List β)
  | [] => .ok []
  | x :: xs => do
    let y ← f x
    let ys ← exceptMapList f xs
    .ok (y :: ys)

def getOpt (kw : Kwargs) (k : String) : Option PyVal :=
  PyDict.get? kw k

/-- Validation of the `expectation_type` literal field: the tag inserted by
`_create_pydantic_expectation` is overridden by a kwargs entry of the same
name, so an explicit entry must match the literal. -/
def checkTag (kw : Kwargs) (tag : String) : Except String Unit :=
  match getOpt kw "expectation_type" with
  | none => .ok ()
  | some (.str s) => if s = tag then .ok () else .error ("literal mismatch: " ++ s)
  | some _ => .error "literal mismatch"

/-- A required `str` field. -/
def parseStr (kw : Kwargs) (k : String) : Except String String :=
  match getOpt kw k with
  | some (.str s) => .ok s
  | some _ => .error (k ++ ": string required")
  | none => .error (k ++ ": field required")

/-- The `mostly : Optional[float]` field with default `1.0` and range
constraint `ge=0.0, le=1.0` (the constraint is not applied to `None`). -/
def parseMostly (kw : Kwargs) : Except String (Option Rat) :=
  match getOpt kw "mostly" with
  | none => .ok (some 1)
  | some .null => .ok none
  | some (.float q) =>
      if 0 ≤ q ∧ q ≤ 1 then .ok (some q) else .error "mostly: out of range"
  | some (.int n) =>
      if 0 ≤ n ∧ n ≤ 1 then .ok (some (n : Rat)) else .error "mostly: out of range"
  | some _ => .error "mostly: number required"

/-- An `Optional[Union[int, float]]` bound field with default `None`. -/
def parseOptNum (kw : Kwargs) (k : String) : Except String (Option PyNum) :=
  match getOpt kw k with
  | none => .ok none
  | some .null => .ok none
  | some (.int n) => .ok (some (.int n))
  | some (.float q) => .ok (some (.float q))
  | some _ => .error (k ++ ": number required")

/-- An `Optional[int]` bound field with default `None` (an integral float is
coerced). -/
def parseOptInt (kw : Kwargs) (k : String) : Except String (Option Int) :=
  match getOpt kw k with
  | none => .ok none
  | some .null => .ok none
  | some (.int n) => .ok (some n)
  | some (.float q) => if q.den = 1 then .ok (some q.num) else .error (k ++ ": int required")
  | some _ => .error (k ++ ": int required")

def parseSetVal : PyVal → Except String SetVal
  | .str s => .ok (.str s)
  | .int n => .ok (.int n)
  | .float q => .ok (.float q)
  | _ => .error "value_set: str, int or float required"

/-- The required `value_set : List[Union[str, int, float]]` field. -/
def parseValueSet (kw : Kwargs) : Except String (List SetVal) :=
  match getOpt kw "value_set" with
  | some (.list xs) => exceptMapList parseSetVal xs
  | some _ => .error "value_set: list required"
  | none => .error "value_set: field required"

/-- The required `column_list : List[str]` field. -/
def parseColumnList (kw : Kwargs) : Except String (List String) :=
  match getOpt kw "column_list" with
  | some (.list xs) =>
      exceptMapList (fun v => match v with
        | .str s => .ok s
        | _ => .error "column_list: string required") xs
  | some _ => .error "column_list: list required"
  | none => .error "column_list: field required"

/-- The `at_least_one_bound` model validator shared by the six ranged kinds. -/
def atLeastOneBound {α β : Type} (mn : Option α) (mx : Option β)
    (e : GreatExpectation) : Except String GreatExpectation :=
  if mn.isNone && mx.isNone then
    .error "At least one of min_value or max_value must be specified"
  else .ok e

def parseExpectColumnToExist (kw : Kwargs) : Except String GreatExpectation := do
  checkTag kw "expect_column_to_exist"
  let column ← parseStr kw "column"
  .ok (.expectColumnToExist column)

def parseExpectColumnValuesToNotBeNull (kw : Kwargs) : Except String GreatExpectation := do
  checkTag kw "expect_column_values_to_not_be_null"
  let column ← parseStr kw "column"
  let mostly ← parseMostly kw
  .ok (.expectColumnValuesToNotBeNull column mostly)

def parseExpectColumnValuesToBeUnique (kw : Kwargs) : Except String GreatExpectation := do
  checkTag kw "expect_column_values_to_be_unique"
  let column ← parseStr kw "column"
  let mostly ← parseMostly kw
  .ok (.expectColumnValuesToBeUnique column mostly)

def parseExpectCompoundColumnsToBeUnique (kw : Kwargs) : Except String GreatExpectation := do
  checkTag kw "expect_compound_columns_to_be_unique"
  let column_list ← parseColumnList kw
  .ok (.expectCompoundColumnsToBeUnique column_list)

def parseExpectColumnValuesToBeInSet (kw : Kwargs) : Except String GreatExpectation := do
  checkTag kw "expect_column_values_to_be_in_set"
  let column ← parseStr kw "column"
  let value_set ← parseValueSet kw
  let mostly ← parseMostly kw
  .ok (.expectColumnValuesToBeInSet column value_set mostly)

def parseExpectColumnValuesToMatchRegex (kw : Kwargs) : Except String GreatExpectation := do
  checkTag kw "expect_column_values_to_match_regex"
  let column ← parseStr kw "column"
  let regex ← parseStr kw "regex"
  let mostly ← parseMostly kw
  .ok (.expectColumnValuesToMatchRegex column regex mostly)

def parseExpectColumnValuesToBeBetween (kw : Kwargs) : Except String GreatExpectation := do
  checkTag kw "expect_column_values_to_be_between"
  let column ← parseStr kw "column"
  let mn ← parseOptNum kw "min_value"
  let mx ← parseOptNum kw "max_value"
  let mostly ← parseMostly kw
  atLeastOneBound mn mx (.expectColumnValuesToBeBetween column mn mx mostly)

def parseExpectColumnValuesToBeOfType (kw : Kwargs) : Except String GreatExpectation := do
  checkTag kw "expect_column_values_to_be_of_type"
  let column ← parseStr kw "column"
  let t ← parseStr kw "type_"
  .ok (.expectColumnValuesToBeOfType column t)

def parseExpectColumnMeanToBeBetween (kw : Kwargs) : Except String GreatExpectation := do
  checkTag kw "expect_column_mean_to_be_between"
  let column ← parseStr kw "column"
  let mn ← parseOptNum kw "min_value"
  let mx ← parseOptNum kw "max_value"
  atLeastOneBound mn mx (.expectColumnMeanToBeBetween column mn mx)

def parseExpectTableRowCountToBeBetween (kw : Kwargs) : Except String GreatExpectation := do
  checkTag kw "expect_table_row_count_to_be_between"
  let mn ← parseOptInt kw "min_value"
  let mx ← parseOptInt kw "max_value"
  atLeastOneBound mn mx (.expectTableRowCountToBeBetween mn mx)

def parseExpectColumnMinToBeBetween (kw : Kwargs) : Except String GreatExpectation := do
  checkTag kw "expect_column_min_to_be_between"
  let column ← parseStr kw "column"
  let mn ← parseOptNum kw "min_value"
  let mx ← parseOptNum kw "max_value"
  atLeastOneBound mn mx (.expectColumnMinToBeBetween column mn mx)

def parseExpectColumnMaxToBeBetween (kw : Kwargs) : Except String GreatExpectation := do
  checkTag kw "expect_column_max_to_be_between"
  let column ← parseStr kw "column"
  let mn ← parseOptNum kw "min_value"
  let mx ← parseOptNum kw "max_value"
  atLeastOneBound mn mx (.expectColumnMaxToBeBetween column mn mx)

def parseExpectColumnSumToBeBetween (kw : Kwargs) : Except String GreatExpectation := do
  checkTag kw "expect_column_sum_to_be_between"
  let column ← parseStr kw "column"
  let mn ← parseOptNum kw "min_value"
  let mx ← parseOptNum kw "max_value"
  atLeastOneBound mn mx (.expectColumnSumToBeBetween column mn mx)

/-- The `expectation_mapping` dict of `_create_pydantic_expectation`: the
fixed type-tag → pydantic-constructor lookup table, entries in source order
(the strftime entry is commented out in the source). -/
def expectation_mapping : List (String × (Kwargs → Except String GreatExpectation)) :=
  [("expect_column_to_exist", parseExpectColumnToExist),
   ("expect_column_values_to_not_be_null", parseExpectColumnValuesToNotBeNull),
   ("expect_column_values_to_be_unique", parseExpectColumnValuesToBeUnique),
   ("expect_compound_columns_to_be_unique", parseExpectCompoundColumnsToBeUnique),
   ("expect_column_values_to_be_in_set", parseExpectColumnValuesToBeInSet),
   ("expect_column_values_to_match_regex", parseExpectColumnValuesToMatchRegex),
   ("expect_column_values_to_be_between", parseExpectColumnValuesToBeBetween),
   ("expect_column_values_to_be_of_type", parseExpectColumnValuesToBeOfType),
   ("expect_column_mean_to_be_between", parseExpectColumnMeanToBeBetween),
   ("expect_table_row_count_to_be_between", parseExpectTableRowCountToBeBetween),
   ("expect_column_min_to_be_between", parseExpectColumnMinToBeBetween),
   ("expect_column_max_to_be_between", parseExpectColumnMaxToBeBetween),
   ("expect_column_sum_to_be_between", parseExpectColumnSumToBeBetween)]

/-- `_create_pydantic_expectation` (leading underscore dropped): dispatch on
the type tag through `expectation_mapping`, then construct the pydantic model
from `{"expectation_type": tag} ∪ kwargs`. -/
def create_pydantic_expectation (expectation_type : String) (kwargs : Kwargs) :
    Except String GreatExpectation :=
  match expectation_mapping.find? (fun p => p.1 = expectation_type) with
  | none => .error ("Unsupported expectation type: " ++ expectation_type)
  | some p => p.2 kwargs

/-- Construction of `ExpectationWithMetadata(id=…, expectation=…,
description=…, source=…)` as performed by `_gx_config_to_pydantic_expectation`:
severity is not passed and defaults to `critical`; pydantic validates the
already-constructed expectation instance against the `GreatExpectation` union,
rejecting `ExpectCompoundColumnsToBeUnique`. -/
def mkExpectationWithMetadata (id : String) (expectation : GreatExpectation)
    (description source : String) : Except String ExpectationWithMetadata :=
  if expectation.inUnion then
    .ok { id, expectation, description, source, severity := .critical }
  else .error "expectation: no union member matched"

def strDictGet (d : List (String × String)) (k : String) : Option String :=
  (d.find? (fun p => p.1 = k)).map (·.2)

/-- `_gx_config_to_pydantic_expectation` (leading underscore dropped). -/
def gx_config_to_pydantic_expectation (gx_config : ExpectationConfiguration)
    (index : Nat) : Except String ExpectationWithMetadata := do
  let expectation_type := gx_config.type
  let exp_id := (strDictGet gx_config.meta "expectation_id").getD ("exp_" ++ toString (index + 1))
  let description := (strDictGet gx_config.meta "description").getD
    ("Expectation for " ++ expectation_type)
  let source := (strDictGet gx_config.meta "source").getD "GX Suite Import"
  let pydantic_expectation ← create_pydantic_expectation expectation_type gx_config.kwargs
  mkExpectationWithMetadata exp_id pydantic_expectation description source

/-- The `enumerate` loop of `gx_suite_to_pydantic`: convert each configuration
in order, aborting on the first failure. -/
def convertConfigsFrom : Nat → List ExpectationConfiguration →
    Except String (List ExpectationWithMetadata)
  | _, [] => .ok []
  | i, c :: rest => do
      let e ← gx_config_to_pydantic_expectation c i
      let es ← convertConfigsFrom (i + 1) rest
      .ok (e :: es)

/-- `gx_suite_to_pydantic`: any per-configuration failure propagates as an
`ExpectationManagerError` and no suite is returned. -/
def gx_suite_to_pydantic (gx_suite : ExpectationSuite) :
    Except String GreatExpectationsSuite := do
  let pydantic_expectations ← convertConfigsFrom 0 gx_suite.expectations
  .ok { expectations := pydantic_expectations }

/-! ## Suite Validator (`validate_gx_suite`, `_validate_single_expectation`) -/

/-- The per-expectation validation record built by
`_validate_single_expectation`. -/
structure ExpValidationDetails where
  index : Nat
  expectation_type : String
  is_valid : Bool
  errors : List String
  warnings : List String
deriving DecidableEq, Repr

/-- The `supported_types` list of `_validate_single_expectation`, in source
order; it retains the strftime tag that the conversion table dropped. -/
def supported_types : List String :=
  ["expect_column_to_exist",
   "expect_column_values_to_not_be_null",
   "expect_column_values_to_be_unique",
   "expect_compound_columns_to_be_unique",
   "expect_column_values_to_be_in_set",
   "expect_column_values_to_match_regex",
   "expect_column_values_to_be_between",
   "expect_column_values_to_be_of_type",
   "expect_column_values_to_match_strftime_format",
   "expect_column_mean_to_be_between",
   "expect_table_row_count_to_be_between",
   "expect_column_min_to_be_between",
   "expect_column_max_to_be_between",
   "expect_column_sum_to_be_between"]

/-- `_validate_single_expectation` (leading underscore dropped): the only
live check is membership of the type tag in `supported_types`. -/
def validate_single_expectation (expectation : ExpectationConfiguration)
    (index : Nat) : ExpValidationDetails :=
  if expectation.type ∈ supported_types then
    { index, expectation_type := expectation.type, is_valid := true
      errors := [], warnings := [] }
  else
    { index, expectation_type := expectation.type, is_valid := false
      errors := ["Unsupported expectation type: " ++ expectation.type], warnings := [] }

/-- The validation report of `validate_gx_suite`. -/
structure ValidationReport where
  suite_name : String
  total_expectations : Nat
  validation_errors : List String
  validation_warnings : List String
  expectation_details : List ExpValidationDetails
  is_valid : Bool
  validated_at : String
deriving DecidableEq, Repr

/-- `validate_gx_suite`: `is_valid` starts `True`, an empty expectation list
adds an error and clears it, an empty name only adds a warning, and each
invalid per-expectation check clears it. -/
def validate_gx_suite (gx_suite : ExpectationSuite) (now : String) :
    Bool × ValidationReport :=
  let validation_warnings := if gx_suite.name = "" then ["Suite has no name"] else []
  let validation_errors :=
    if gx_suite.expectations.isEmpty then ["Suite has no expectations"] else []
  let expectation_details :=
    gx_suite.expectations.enum.map (fun p => validate_single_expectation p.2 p.1)
  let is_valid := !gx_suite.expectations.isEmpty && expectation_details.all (·.is_valid)
  (is_valid,
   { suite_name := gx_suite.name
     total_expectations := gx_suite.expectations.length
     validation_errors, validation_warnings, expectation_details, is_valid
     validated_at := now })

/-! ## Serialization Layer

`serialize_to_json` / `serialize_to_yaml` both dump
`pydantic_suite.model_dump(exclude_none=True)` and render it as text
(`json.dumps` resp. `yaml.dump`); `deserialize_from_json` /
`deserialize_from_yaml` decode the text (`json.loads` resp. `yaml.safe_load`)
and rebuild the suite through `GreatExpectationsSuite(**data)`.  The text
codecs are the standard library's and faithfully invert each other on the
document trees produced here, so serialization is modelled as producing the
document tree (`PyVal`) and deserialization as validating it back into a
suite. -/

/-- `model_dump(exclude_none=True)` on one expectation model: `None`-valued
fields are omitted instead of being emitted as null placeholders. -/
def PyVal.isNull : PyVal → Bool
  | .null => true
  | _ => false

def GreatExpectation.dumpExcludeNone (e : GreatExpectation) : List (String × PyVal) :=
  e.model_dump.filter (fun p => !p.2.isNull)

/-- `model_dump(exclude_none=True)` on an `ExpectationWithMetadata` (all its
own fields are always present; `severity` dumps as its literal string). -/
def expectationWithMetadataDump (e : ExpectationWithMetadata) : PyVal :=
  .obj [("id", .str e.id),
        ("expectation", .obj e.expectation.dumpExcludeNone),
        ("description", .str e.description),
        ("source", .str e.source),
        ("severity", .str e.severity.toStr)]

/-- `model_dump(exclude_none=True)` on the suite. -/
def suiteDump (s : GreatExpectationsSuite) : PyVal :=
  .obj [("expectations", .list (s.expectations.map expectationWithMetadataDump))]

/-- `serialize_to_json` (document tree of the emitted JSON text). -/
def serialize_to_json (pydantic_suite : GreatExpectationsSuite) : PyVal :=
  suiteDump pydantic_suite

/-- `serialize_to_yaml` (document tree of the emitted YAML text). -/
def serialize_to_yaml (pydantic_suite : GreatExpectationsSuite) : PyVal :=
  suiteDump pydantic_suite

/-- The members of the `GreatExpectation` union in declaration order, each
with its constructor; the union dispatches on the `expectation_type` literal
discriminator carried by every serialized rule entry
(`ExpectCompoundColumnsToBeUnique` is not a member). -/
def unionMembers : List (String × (Kwargs → Except String GreatExpectation)) :=
  [("expect_column_to_exist", parseExpectColumnToExist),
   ("expect_column_values_to_not_be_null", parseExpectColumnValuesToNotBeNull),
   ("expect_column_values_to_be_unique", parseExpectColumnValuesToBeUnique),
   ("expect_column_values_to_be_in_set", parseExpectColumnValuesToBeInSet),
   ("expect_column_values_to_match_regex", parseExpectColumnValuesToMatchRegex),
   ("expect_column_values_to_be_between", parseExpectColumnValuesToBeBetween),
   ("expect_column_values_to_be_of_type", parseExpectColumnValuesToBeOfType),
   ("expect_column_mean_to_be_between", parseExpectColumnMeanToBeBetween),
   ("expect_table_row_count_to_be_between", parseExpectTableRowCountToBeBetween),
   ("expect_column_min_to_be_between", parseExpectColumnMinToBeBetween),
   ("expect_column_max_to_be_between", parseExpectColumnMaxToBeBetween),
   ("expect_column_sum_to_be_between", parseExpectColumnSumToBeBetween)]

/-- Validation of a decoded rule entry against the `GreatExpectation` union. -/
def parseUnionExpectation (kw : Kwargs) : Except String GreatExpectation :=
  match getOpt kw "expectation_type" with
  | some (.str tag) =>
      match unionMembers.find? (fun p => p.1 = tag) with
      | some p => p.2 kw
      | none => .error ("expectation: no union member matched tag " ++ tag)
  | _ => .error "expectation: expectation_type discriminator required"

/-- The `severity` literal field of `ExpectationWithMetadata`, default
`critical`. -/
def parseSeverity (kw : Kwargs) : Except String Severity :=
  match getOpt kw "severity" with
  | none => .ok .critical
  | some (.str "critical") => .ok .critical
  | some (.str "warning") => .ok .warning
  | some (.str "info") => .ok .info
  | some _ => .error "severity: literal required"

/-- Validation of a decoded `ExpectationWithMetadata` entry. -/
def parseExpectationWithMetadata (v : PyVal) : Except String ExpectationWithMetadata := do
  match v with
  | .obj kw => do
      let id ← parseStr kw "id"
      let expectation ← match getOpt kw "expectation" with
        | some (.obj ekw) => parseUnionExpectation ekw
        | some _ => .error "expectation: model required"
        | none => .error "expectation: field required"
      let description ← parseStr kw "description"
      let source ← parseStr kw "source"
      let severity ← parseSeverity kw
      .ok { id, expectation, description, source, severity }
  | _ => .error "expectation entry: mapping required"

/-- `GreatExpectationsSuite(**data)` on a decoded document tree. -/
def parseGreatExpectationsSuite (v : PyVal) : Except String GreatExpectationsSuite := do
  match v with
  | .obj kw =>
      match getOpt kw "expectations" with
      | some (.list xs) => do
          let es ← exceptMapList parseExpectationWithMetadata xs
          .ok { expectations := es }
      | some _ => .error "expectations: list required"
      | none => .error "expectations: field required"
  | _ => .error "suite: mapping required"

/-- `deserialize_from_json` with `is_file=False` (document tree of the input
JSON text). -/
def deserialize_from_json (v : PyVal) : Except String GreatExpectationsSuite :=
  parseGreatExpectationsSuite v

/-- `deserialize_from_yaml` with `is_file=False` (document tree of the input
YAML text). -/
def deserialize_from_yaml (v : PyVal) : Except String GreatExpectationsSuite :=
  parseGreatExpectationsSuite v

mutual

/-- `True` iff a document tree contains no null placeholder anywhere
(defined mutually with its list and field-list variants). -/
def PyVal.noNull : PyVal → Bool
  | .null => false
  | .bool _ => true
  | .int _ => true
  | .float _ => true
  | .str _ => true
  | .list xs => noNullList xs
  | .obj fs => noNullFields fs
termination_by v => sizeOf v

def noNullList : List PyVal → Bool
  | [] => true
  | x :: xs => x.noNull && noNullList xs
termination_by l => sizeOf l

def noNullFields : List (String × PyVal) → Bool
  | [] => true
  | p :: ps => p.2.noNull && noNullFields ps
termination_by l => sizeOf l
decreasing_by
  · obtain ⟨k, v⟩ := p
    simp only [List.cons.sizeOf_spec, Prod.mk.sizeOf_spec]
    omega
  · simp only [List.cons.sizeOf_spec]
    omega

end

/-! ## Result Analyzer (`src/src/gx_utils.py`, `analyze_validation_results`)

The raw validation payload is an arbitrary nested Python value (`PyVal`).
Attribute and item accesses that raise in Python (`.get` on a non-mapping,
`len` of a number, sorting mutually incomparable keys, unhashable dict keys)
are modelled as `Except` errors at the same program points. -/

/-- `v.get(k, d)`: raises `AttributeError` unless `v` is a mapping. -/
def pyGetD (v : PyVal) (k : String) (d : PyVal) : Except String PyVal :=
  match v with
  | .obj fs => .ok ((PyDict.get? fs k).getD d)
  | _ => .error ("AttributeError: get on " ++ k)

/-- `len(v)`. -/
def pyLen : PyVal → Except String Nat
  | .list xs => .ok xs.length
  | .obj fs => .ok fs.length
  | .str s => .ok s.length
  | _ => .error "TypeError: len"

/-- Python truthiness. -/
def pyTruthy : PyVal → Bool
  | .null => false
  | .bool b => b
  | .int n => n != 0
  | .float q => q != 0
  | .str s => s != ""
  | .list xs => !xs.isEmpty
  | .obj fs => !fs.isEmpty

/-- The numeric view of a value (Python treats `bool` as a number). -/
def PyVal.asNumber : PyVal → Option Rat
  | .bool b => some (if b then 1 else 0)
  | .int n => some (n : Rat)
  | .float q => some q
  | _ => none

/-- Python `==` on the value kinds that can appear as dict keys or severity
values (numbers compare across kinds, container equality is never reached
because containers fail the hashability check first). -/
def pyEq (a b : PyVal) : Bool :=
  match a.asNumber, b.asNumber with
  | some x, some y => x == y
  | _, _ =>
    match a, b with
    | .null, .null => true
    | .str s, .str t => s == t
    | _, _ => false

/-- Hashability of a dict key (`list` and `dict` raise `TypeError`). -/
def pyHashable : PyVal → Bool
  | .list _ => false
  | .obj _ => false
  | _ => true

/-- `k in v` as reached in `analyze_validation_results`: by the time the
membership test runs, `expectation_result` has already been `.get`-accessed,
so only mappings reach it. -/
def pyContains (v : PyVal) (k : String) : Except String Bool :=
  match v with
  | .obj fs => .ok ((PyDict.get? fs k).isSome)
  | _ => .error "TypeError: membership"

/-- `d[k] = d.get(k, 0) + 1` on a counting dict, preserving insertion order. -/
def dictIncr : List (PyVal × Nat) → PyVal → List (PyVal × Nat)
  | [], k => [(k, 1)]
  | (k', n) :: rest, k =>
      if pyEq k' k then (k', n + 1) :: rest else (k', n) :: dictIncr rest k

/-- The `failure_info` dict built for a failed expectation. -/
structure FailureInfo where
  total_elements : PyVal
  invalid_count : PyVal
  invalid_percentage : PyVal
  invalid_values : PyVal
  invalid_indices : PyVal
  value_counts : PyVal
  missing_count : Option PyVal
  missing_percentage : Option PyVal
deriving Repr

/-- The per-expectation detail record of the analysis report. -/
structure ExpectationDetail where
  expectation_id : PyVal
  expectation_type : PyVal
  column : PyVal
  description : PyVal
  severity : PyVal
  source : PyVal
  success : PyVal
  status : String
  failure_info : Option FailureInfo
  expectation_kwargs : PyVal
deriving Repr

/-- An entry of the severity-bucketed failure lists. -/
structure FailBucketEntry where
  expectation_id : PyVal
  column : PyVal
  invalid_percentage : PyVal
deriving Repr

structure FailureSummary where
  failed_by_type : List (PyVal × Nat)
  failed_by_column : List (PyVal × Nat)
  critical_failures : List FailBucketEntry
  warning_failures : List FailBucketEntry
  info_failures : List FailBucketEntry
  most_common_failures : List ExpectationDetail
deriving Repr

structure ExecutiveSummary where
  overall_success : PyVal
  total_expectations : PyVal
  successful_expectations : PyVal
  failed_expectations : PyVal
  success_percentage : PyVal
  validation_time : PyVal
  suite_name : PyVal
deriving Repr

structure AnalysisReport where
  executive_summary : ExecutiveSummary
  expectation_details : List ExpectationDetail
  failure_summary : FailureSummary
  raw_statistics : PyVal
deriving Repr

/-- The body of the `for result in results` loop: one detail record per raw
result entry, with `'unknown'`/`'No description'`/`False`/`0`/`0.0`/`[]`
defaults for absent fields. -/
def processResultEntry (result : PyVal) : Except String ExpectationDetail := do
  let expectation_config ← pyGetD result "expectation_config" (.obj [])
  let expectation_result ← pyGetD result "result" (.obj [])
  let meta ← pyGetD expectation_config "meta" (.obj [])
  let expectation_id ← pyGetD meta "expectation_id" (.str "unknown")
  let expectation_type ← pyGetD expectation_config "type" (.str "unknown")
  let kwargs ← pyGetD expectation_config "kwargs" (.obj [])
  let column ← pyGetD kwargs "column" .null
  let description ← pyGetD meta "description" (.str "No description")
  let severity ← pyGetD expectation_config "severity" (.str "unknown")
  let source ← pyGetD meta "source" (.str "unknown")
  let success ← pyGetD result "success" (.bool false)
  if pyTruthy success then
    .ok { expectation_id, expectation_type, column, description, severity, source
          success, status := "PASS", failure_info := none, expectation_kwargs := kwargs }
  else do
    let total_elements ← pyGetD expectation_result "element_count" (.int 0)
    let invalid_count ← pyGetD expectation_result "unexpected_count" (.int 0)
    let invalid_percentage ← pyGetD expectation_result "unexpected_percent" (.float 0)
    let invalid_values ← pyGetD expectation_result "partial_unexpected_list" (.list [])
    let invalid_indices ← pyGetD expectation_result "partial_unexpected_index_list" (.list [])
    let value_counts ← pyGetD expectation_result "partial_unexpected_counts" (.list [])
    let hasMissing ← pyContains expectation_result "missing_count"
    let missing_count := if hasMissing then
        some ((match expectation_result with
               | .obj fs => PyDict.get? fs "missing_count"
               | _ => none).getD .null)
      else none
    let missing_percentage ← if hasMissing then
        (pyGetD expectation_result "missing_percent" (.float 0)).map some
      else .ok none
    .ok { expectation_id, expectation_type, column, description, severity, source
          success, status := "FAIL"
          failure_info := some { total_elements, invalid_count, invalid_percentage
                                 invalid_values, invalid_indices, value_counts
                                 missing_count, missing_percentage }
          expectation_kwargs := kwargs }

/-- `x['failure_info']['invalid_percentage'] if x['failure_info'] else 0`
(the failure-info dict always has six keys, so when present it is truthy). -/
def detailBucketPct (d : ExpectationDetail) : PyVal :=
  match d.failure_info with
  | some fi => fi.invalid_percentage
  | none => .int 0

/-- The sort key `x['failure_info']['invalid_percentage']` (subscripting
`None` would raise, but the filter guarantees presence). -/
def detailSortKey (d : ExpectationDetail) : Except String PyVal :=
  match d.failure_info with
  | some fi => .ok fi.invalid_percentage
  | none => .error "TypeError: NoneType is not subscriptable"

/-- Stable insertion placing `x` before the first element `y` with
`le x y`. -/
def insertBefore {α : Type} (le : α → α → Bool) (x : α) : List α → List α
  | [] => [x]
  | y :: ys => if le x y then x :: y :: ys else y :: insertBefore le x ys

/-- A stable sort (the order Python's stable `sorted` guarantees): elements
that compare equal keep their original relative order. -/
def stableSort {α : Type} (le : α → α → Bool) : List α → List α
  | [] => []
  | x :: xs => insertBefore le x (stableSort le xs)

/-- `sorted(failed, key=…, reverse=True)`: a stable descending sort.  Numeric
keys compare as numbers and string keys as strings; a mixed key list raises
`TypeError` as soon as an incomparable pair is compared, which for the lists
at hand is any list of length ≥ 2. -/
def pySortDescByPct (failed : List ExpectationDetail) :
    Except String (List ExpectationDetail) := do
  let keyed ← exceptMapList (fun d => (detailSortKey d).map (fun k => (d, k))) failed
  if keyed.length ≤ 1 then
    .ok (keyed.map (·.1))
  else if keyed.all (fun p => p.2.asNumber.isSome) then
    .ok ((stableSort
      (fun a b => ((b.2.asNumber.getD 0) ≤ (a.2.asNumber.getD 0) : Bool))
      keyed).map (·.1))
  else if keyed.all (fun p => match p.2 with | .str _ => true | _ => false) then
    .ok ((stableSort
      (fun a b => ((match b.2 with | .str s => s | _ => "") ≤
                   (match a.2 with | .str s => s | _ => "") : Bool))
      keyed).map (·.1))
  else .error "TypeError: comparison"

/-- The accumulator state of the failure-categorization loop. -/
structure FailAcc where
  failed_by_type : List (PyVal × Nat)
  failed_by_column : List (PyVal × Nat)
  critical_failures : List FailBucketEntry
  warning_failures : List FailBucketEntry
  info_failures : List FailBucketEntry
deriving Repr

/-- One iteration of the failure-categorization loop over a detail record. -/
def failAccStep (acc : FailAcc) (detail : ExpectationDetail) : Except String FailAcc :=
  if detail.status = "FAIL" then do
    let exp_type := detail.expectation_type
    let column := detail.column
    let _ ← if pyHashable exp_type then .ok () else
      .error "TypeError: unhashable type as dict key"
    let failed_by_type := dictIncr acc.failed_by_type exp_type
    let failed_by_column ← if pyTruthy column then
        if pyHashable column then .ok (dictIncr acc.failed_by_column column)
        else .error "TypeError: unhashable type as dict key"
      else .ok acc.failed_by_column
    let entry : FailBucketEntry :=
      { expectation_id := detail.expectation_id, column := detail.column
        invalid_percentage := detailBucketPct detail }
    let critical_failures := if pyEq detail.severity (.str "critical") then
        acc.critical_failures ++ [entry] else acc.critical_failures
    let warning_failures := if pyEq detail.severity (.str "warning") then
        acc.warning_failures ++ [entry] else acc.warning_failures
    let info_failures := if pyEq detail.severity (.str "info") then
        acc.info_failures ++ [entry] else acc.info_failures
    .ok { failed_by_type, failed_by_column, critical_failures, warning_failures
          info_failures }
  else .ok acc

/-- The failure summary: categorize every FAIL detail, then keep the top 5
failures by `invalid_percentage`, descending, ties broken by original order. -/
def buildFailureSummary (expectation_details : List ExpectationDetail) :
    Except String FailureSummary := do
  let acc ← expectation_details.foldlM failAccStep
    { failed_by_type := [], failed_by_column := [], critical_failures := []
      warning_failures := [], info_failures := [] }
  let failed_expectations := expectation_details.filter
    (fun d => d.status == "FAIL" && d.failure_info.isSome)
  let sortedFailed ← pySortDescByPct failed_expectations
  .ok { failed_by_type := acc.failed_by_type
        failed_by_column := acc.failed_by_column
        critical_failures := acc.critical_failures
        warning_failures := acc.warning_failures
        info_failures := acc.info_failures
        most_common_failures := sortedFailed.take 5 }

/-- The iterable view of `results` as reached by the `for` loop: a list
iterates its elements; a non-empty mapping or string would feed a non-mapping
into `result.get` and raise, an empty one yields no iterations; any other
value raises `TypeError`. -/
def pyResultsEntries : PyVal → Except String (List PyVal)
  | .list xs => .ok xs
  | .obj fs => if fs.isEmpty then .ok [] else .error "AttributeError: get"
  | .str s => if s.isEmpty then .ok [] else .error "AttributeError: get"
  | _ => .error "TypeError: not iterable"

/-- `analyze_validation_results` on a payload that is already a plain mapping
value (the `to_json_dict`/`__dict__` adaptation step is the identity there). -/
def analyze_validation_results (validation_result : PyVal) :
    Except String AnalysisReport := do
  let result_dict := validation_result
  let overall_success ← pyGetD result_dict "success" (.bool false)
  let results ← pyGetD result_dict "results" (.list [])
  let statistics ← pyGetD result_dict "statistics" (.obj [])
  let nresults ← pyLen results
  let total_expectations ← pyGetD statistics "evaluated_expectations" (.int nresults)
  let successful_expectations ← pyGetD statistics "successful_expectations" (.int 0)
  let failed_expectations ← pyGetD statistics "unsuccessful_expectations" (.int 0)
  let success_percentage ← pyGetD statistics "success_percent" (.float 0)
  let metaVal ← pyGetD result_dict "meta" (.obj [])
  let validation_time ← pyGetD metaVal "validation_time" .null
  let suite_name ← pyGetD result_dict "suite_name" .null
  let entries ← pyResultsEntries results
  let expectation_details ← exceptMapList processResultEntry entries
  let failure_summary ← buildFailureSummary expectation_details
  .ok { executive_summary :=
          { overall_success, total_expectations, successful_expectations
            failed_expectations, success_percentage, validation_time, suite_name }
        expectation_details, failure_summary, raw_statistics := statistics }

/-! ## Prompt-generation interface (`src/src/gx_promt_utils.py`)

`get_pydantic_expectations_info` renders each listed pydantic model's field
schema (`convert_model_to_str(model)` = a YAML rendering of
`model.model_json_schema()`).  Python resolves each name of the
`expectation_models` list literal when the function runs; a name that is
neither imported nor defined in the module raises `NameError` at that point. -/

/-- One field of a pydantic model's JSON schema: name, type, required flag
and the `Field(description=…)` text, as declared in `expectations.py`. -/
structure FieldSchema where
  name : String
  type_desc : String
  required : Bool
  description : String
deriving DecidableEq, Repr

/-- The field schemas of the model classes defined in `expectations.py`,
keyed by class name. -/
def expectationModelSchema : String → List FieldSchema
  | "ExpectColumnToExist" =>
      [⟨"column", "string", true, "Name of the column that must exist"⟩]
  | "ExpectColumnValuesToNotBeNull" =>
      [⟨"column", "string", true, "Name of the column to check for null values"⟩,
       ⟨"mostly", "number", false, "Minimum fraction of non-null values (0.0 to 1.0)"⟩]
  | "ExpectColumnValuesToBeUnique" =>
      [⟨"column", "string", true, "Name of the column that should have unique values"⟩,
       ⟨"mostly", "number", false, "Minimum fraction of unique values"⟩]
  | "ExpectCompoundColumnsToBeUnique" =>
      [⟨"column_list", "array of string", true,
        "List of column names that together should form unique combinations"⟩]
  | "ExpectColumnValuesToBeInSet" =>
      [⟨"column", "string", true, "Name of the column to validate against the value set"⟩,
       ⟨"value_set", "array of string or number", true, "List of valid values"⟩,
       ⟨"mostly", "number", false, "Minimum fraction of values that must be in the set"⟩]
  | "ExpectColumnValuesToMatchRegex" =>
      [⟨"column", "string", true, "Name of the column to validate with regex"⟩,
       ⟨"regex", "string", true, "Regular expression pattern"⟩,
       ⟨"mostly", "number", false, "Minimum fraction of values that must match the regex"⟩]
  | "ExpectColumnValuesToBeBetween" =>
      [⟨"column", "string", true, "Name of the numeric column to validate"⟩,
       ⟨"min_value", "integer or number", false, "Minimum allowed value (inclusive)"⟩,
       ⟨"max_value", "integer or number", false, "Maximum allowed value (inclusive)"⟩,
       ⟨"mostly", "number", false, "Minimum fraction of values that must be within range"⟩]
  | "ExpectColumnValuesToBeOfType" =>
      [⟨"column", "string", true, "Name of the column to validate type"⟩,
       ⟨"type_", "string", true,
        "Expected data type. Examples: 'int', 'float', 'str', 'bool', 'datetime'"⟩]
  | "ExpectColumnMeanToBeBetween" =>
      [⟨"column", "string", true, "Name of the numeric column to calculate mean"⟩,
       ⟨"min_value", "integer or number", false, "Minimum expected mean value"⟩,
       ⟨"max_value", "integer or number", false, "Maximum expected mean value"⟩]
  | "ExpectTableRowCountToBeBetween" =>
      [⟨"min_value", "integer", false, "Minimum expected number of rows"⟩,
       ⟨"max_value", "integer", false, "Maximum expected number of rows"⟩]
  | "ExpectColumnMinToBeBetween" =>
      [⟨"column", "string", true, "Name of the numeric column"⟩,
       ⟨"min_value", "integer or number", false, "Minimum expected minimum value"⟩,
       ⟨"max_value", "integer or number", false, "Maximum expected minimum value"⟩]
  | "ExpectColumnMaxToBeBetween" =>
      [⟨"column", "string", true, "Name of the numeric column"⟩,
       ⟨"min_value", "integer or number", false, "Minimum expected maximum value"⟩,
       ⟨"max_value", "integer or number", false, "Maximum expected maximum value"⟩]
  | "ExpectColumnSumToBeBetween" =>
      [⟨"column", "string", true, "Name of the numeric column to sum"⟩,
       ⟨"min_value", "integer or number", false, "Minimum expected sum"⟩,
       ⟨"max_value", "integer or number", false, "Maximum expected sum"⟩]
  | _ => []

/-- `convert_model_to_str`: a textual rendering of one model's field schema
(names, types, descriptions, required/optional). -/
def convert_model_to_str (model : String) : String :=
  model ++ ":\n" ++ String.join ((expectationModelSchema model).map (fun f =>
    "  " ++ f.name ++ " : " ++ f.type_desc ++
    (if f.required then " (required)" else " (optional)") ++
    " - " ++ f.description ++ "\n"))

/-- The names bound in the module scope of `gx_promt_utils.py` that the
`expectation_models` list can refer to: exactly the models named in the
`from src.expectations import …` statement (the strftime class is commented
out in `expectations.py` and is not imported). -/
def gx_promt_utils_imports : List String :=
  ["ExpectColumnMaxToBeBetween", "ExpectColumnMeanToBeBetween",
   "ExpectColumnMinToBeBetween", "ExpectColumnSumToBeBetween",
   "ExpectColumnToExist", "ExpectColumnValuesToBeBetween",
   "ExpectColumnValuesToBeInSet", "ExpectColumnValuesToBeOfType",
   "ExpectColumnValuesToBeUnique", "ExpectColumnValuesToMatchRegex",
   "ExpectColumnValuesToNotBeNull", "ExpectCompoundColumnsToBeUnique",
   "ExpectTableRowCountToBeBetween"]

/-- The names referenced by the `expectation_models` list literal inside
`get_pydantic_expectations_info`, in source order. -/
def expectation_models : List String :=
  ["ExpectColumnToExist", "ExpectColumnValuesToNotBeNull",
   "ExpectColumnValuesToBeUnique", "ExpectCompoundColumnsToBeUnique",
   "ExpectColumnValuesToBeInSet", "ExpectColumnValuesToMatchRegex",
   "ExpectColumnValuesToBeBetween", "ExpectColumnValuesToBeOfType",
   "ExpectColumnValuesToMatchStrftimeFormat", "ExpectColumnMeanToBeBetween",
   "ExpectTableRowCountToBeBetween", "ExpectColumnMinToBeBetween",
   "ExpectColumnMaxToBeBetween", "ExpectColumnSumToBeBetween"]

/-- `get_pydantic_expectations_info()`: evaluating the `expectation_models`
list literal resolves each name left to right and raises `NameError` at the
first unbound one; otherwise one schema-text block per listed model is
returned. -/
def get_pydantic_expectations_info : Except String (List String) :=
  match expectation_models.find? (fun n => !gx_promt_utils_imports.contains n) with
  | some missing => .error ("NameError: name " ++ missing ++ " is not defined")
  | none => .ok (expectation_models.map convert_model_to_str)

/-! ## Specification-side definitions used by the theorems -/

/-- Total variant of `v.get(k, d)` for values already known to be mappings. -/
def objGetD (v : PyVal) (k : String) (d : PyVal) : PyVal :=
  match v with
  | .obj fs => (PyDict.get? fs k).getD d
  | _ => d

def PyVal.isObj : PyVal → Bool
  | .obj _ => true
  | _ => false

def objContains (v : PyVal) (k : String) : Bool :=
  match v with
  | .obj fs => (PyDict.get? fs k).isSome
  | _ => false

/-- The failure-info record `processResultEntry` builds for a failed entry,
as a total function of the entry's `result` mapping. -/
def failureInfoOf (expectation_result : PyVal) : FailureInfo :=
  { total_elements := objGetD expectation_result "element_count" (.int 0)
    invalid_count := objGetD expectation_result "unexpected_count" (.int 0)
    invalid_percentage := objGetD expectation_result "unexpected_percent" (.float 0)
    invalid_values := objGetD expectation_result "partial_unexpected_list" (.list [])
    invalid_indices := objGetD expectation_result "partial_unexpected_index_list" (.list [])
    value_counts := objGetD expectation_result "partial_unexpected_counts" (.list [])
    missing_count := if objContains expectation_result "missing_count" then
        some (objGetD expectation_result "missing_count" .null) else none
    missing_percentage := if objContains expectation_result "missing_count" then
        some (objGetD expectation_result "missing_percent" (.float 0)) else none }

/-- The detail record `processResultEntry` produces on a well-shaped entry,
as a total function: absent fields receive the documented defaults
(`unknown`, `No description`, `False`, `0`, `0.0`, `[]`). -/
def detailOf (result : PyVal) : ExpectationDetail :=
  let expectation_config := objGetD result "expectation_config" (.obj [])
  let expectation_result := objGetD result "result" (.obj [])
  let meta := objGetD expectation_config "meta" (.obj [])
  let kwargs := objGetD expectation_config "kwargs" (.obj [])
  let success := objGetD result "success" (.bool false)
  { expectation_id := objGetD meta "expectation_id" (.str "unknown")
    expectation_type := objGetD expectation_config "type" (.str "unknown")
    column := objGetD kwargs "column" .null
    description := objGetD meta "description" (.str "No description")
    severity := objGetD expectation_config "severity" (.str "unknown")
    source := objGetD meta "source" (.str "unknown")
    success
    status := if pyTruthy success then "PASS" else "FAIL"
    failure_info := if pyTruthy success then none else some (failureInfoOf expectation_result)
    expectation_kwargs := kwargs }

def fieldIsObjIfPresent (fs : List (String × PyVal)) (k : String) : Bool :=
  match PyDict.get? fs k with
  | none => true
  | some (.obj _) => true
  | some _ => false

def fieldIsStrIfPresent (fs : List (String × PyVal)) (k : String) : Bool :=
  match PyDict.get? fs k with
  | none => true
  | some (.str _) => true
  | some _ => false

def fieldIsNumIfPresent (fs : List (String × PyVal)) (k : String) : Bool :=
  match PyDict.get? fs k with
  | none => true
  | some (.int _) => true
  | some (.float _) => true
  | some _ => false

/-- A well-shaped raw result entry: a mapping whose `expectation_config` and
`result` values (when present) are mappings, whose config's `meta` and
`kwargs` values (when present) are mappings, and whose `type`, `severity`,
`column` and `unexpected_percent` fields (when present) are scalars of the
kind the engine emits. -/
def entryWellShaped (v : PyVal) : Bool :=
  match v with
  | .obj fs =>
      fieldIsObjIfPresent fs "expectation_config" &&
      fieldIsObjIfPresent fs "result" &&
      (match objGetD v "expectation_config" (.obj []) with
       | .obj cfs =>
           fieldIsObjIfPresent cfs "meta" && fieldIsObjIfPresent cfs "kwargs" &&
           fieldIsStrIfPresent cfs "type" && fieldIsStrIfPresent cfs "severity" &&
           (match objGetD (.obj cfs) "kwargs" (.obj []) with
            | .obj kfs => fieldIsStrIfPresent kfs "column"
            | _ => false)
       | _ => false) &&
      (match objGetD v "result" (.obj []) with
       | .obj rfs => fieldIsNumIfPresent rfs "unexpected_percent"
       | _ => false)
  | _ => false

/-- A well-shaped raw validation payload: a mapping whose `statistics` and
`meta` values (when present) are mappings and whose `results` value (when
present) is a list of well-shaped entries. -/
def payloadWellShaped (p : PyVal) : Bool :=
  match p with
  | .obj fs =>
      fieldIsObjIfPresent fs "statistics" && fieldIsObjIfPresent fs "meta" &&
      (match PyDict.get? fs "results" with
       | none => true
       | some (.list xs) => xs.all entryWellShaped
       | some _ => false)
  | _ => false

/-- The payload shape named by the claim under scrutiny: a mapping whose
`results` value (if present) is a list of mappings. -/
def mappingWithResultsList (p : PyVal) : Bool :=
  match p with
  | .obj fs =>
      match PyDict.get? fs "results" with
      | none => true
      | some (.list xs) => xs.all (·.isObj)
      | some _ => false
  | _ => false

/-- The `results` list of a payload (empty when absent or not a list). -/
def resultsOf (p : PyVal) : List PyVal :=
  match objGetD p "results" (.list []) with
  | .list xs => xs
  | _ => []

def entrySuccess (v : PyVal) : PyVal := objGetD v "success" (.bool false)

def entrySeverity (v : PyVal) : PyVal :=
  objGetD (objGetD v "expectation_config" (.obj [])) "severity" (.str "unknown")

def entryPct (v : PyVal) : PyVal :=
  objGetD (objGetD v "result" (.obj [])) "unexpected_percent" (.float 0)

def statsUnsuccessful (p : PyVal) : PyVal :=
  objGetD (objGetD p "statistics" (.obj [])) "unsuccessful_expectations" (.int 0)

/-- Requirement for a lossless serialization round trip: a valid suite whose
`mostly` fields hold values (the data model's `mostly` is a number in [0,1]
with default 1.0; an explicit Python `None` is dropped by
`exclude_none=True` and re-read as the default). -/
def GreatExpectation.mostlySomeb : GreatExpectation → Bool
  | .expectColumnValuesToNotBeNull _ m => m.isSome
  | .expectColumnValuesToBeUnique _ m => m.isSome
  | .expectColumnValuesToBeInSet _ _ m => m.isSome
  | .expectColumnValuesToMatchRegex _ _ m => m.isSome
  | .expectColumnValuesToBeBetween _ _ _ m => m.isSome
  | _ => true

def GreatExpectationsSuite.serialWfb (s : GreatExpectationsSuite) : Bool :=
  s.wfb && s.expectations.all (fun e => e.expectation.mostlySomeb)

/-- A sample suite mirroring the repository's own test fixture
(`examples/test_expectation_manager.py`), with one non-default severity. -/
def sampleSuite : GreatExpectationsSuite :=
  { expectations :=
      [{ id := "exp_001"
         expectation := .expectColumnToExist "customer_id"
         description := "Customer ID column must exist in the dataset"
         source := "Documentation" },
       { id := "exp_002"
         expectation := .expectColumnValuesToNotBeNull "customer_id" (some 1)
         description := "Customer ID cannot be null"
         source := "Data Profiling"
         severity := .warning },
       { id := "exp_003"
         expectation := .expectColumnValuesToBeBetween "order_total"
           (some (.int 0)) (some (.int 10000)) (some 1)
         description := "Order total must be between 0 and 10,000"
         source := "Business Rules" },
       { id := "exp_004"
         expectation := .expectTableRowCountToBeBetween (some 100) (some 1000000)
         description := "Dataset should have reasonable number of rows"
         source := "Data Validation" }] }

/-- A native suite containing one configuration with an unsupported tag. -/
def unsupportedTagSuite : ExpectationSuite :=
  { name := "bad_suite"
    expectations :=
      [{ type := "expect_column_to_exist", kwargs := [("column", .str "a")]
         meta := [], severity := .CRITICAL },
       { type := "expect_column_values_to_be_increasing", kwargs := [("column", .str "a")]
         meta := [], severity := .CRITICAL }]
    meta := { created_by := "ExpectationManager", created_at := "t", total_expectations := 2 } }

/-- A native suite with no expectations. -/
def emptyGxSuite : ExpectationSuite :=
  { name := "empty_suite", expectations := []
    meta := { created_by := "ExpectationManager", created_at := "t", total_expectations := 0 } }

/-- A native configuration carrying no metadata keys. -/
def bareConfig : ExpectationConfiguration :=
  { type := "expect_column_to_exist", kwargs := [("column", .str "c")]
    meta := [], severity := .CRITICAL }

/-- The payload on which the totality claim for the analyzer fails: a mapping
whose `results` value is a list of mappings, but whose `meta` value is a
number, so the chained `validation_time` lookup calls `.get` on an int and
raises `AttributeError`. -/
def c10CounterPayload : PyVal :=
  .obj [("results", .list []), ("meta", .int 5)]

/-- A well-shaped one-entry payload whose entry is an empty mapping. -/
def c10WitnessPayload : PyVal :=
  .obj [("results", .list [.obj []])]

/-- The first failed entry of the C6 witness payload: severity critical,
invalid percentage 10.0. -/
def c6FailEntryCritical : PyVal :=
  .obj [("expectation_config", .obj
            [("type", .str "expect_column_values_to_not_be_null"),
             ("severity", .str "critical"),
             ("kwargs", .obj [("column", .str "customer_id")]),
             ("meta", .obj [("expectation_id", .str "e2")])]),
        ("result", .obj [("element_count", .int 100),
                         ("unexpected_count", .int 10),
                         ("unexpected_percent", .float 10)]),
        ("success", .bool false)]

/-- The second failed entry of the C6 witness payload: severity warning,
invalid percentage 45.5. -/
def c6FailEntryWarning : PyVal :=
  .obj [("expectation_config", .obj
            [("type", .str "expect_column_values_to_be_between"),
             ("severity", .str "warning"),
             ("kwargs", .obj [("column", .str "order_total")]),
             ("meta", .obj [("expectation_id", .str "e4")])]),
        ("result", .obj [("element_count", .int 200),
                         ("unexpected_count", .int 91),
                         ("unexpected_percent", .float (91 / 2))]),
        ("success", .bool false)]

/-- A raw validation payload with five result entries, two of which failed
(severities critical and warning, invalid percentages 10.0 and 45.5), with
the engine's matching statistics block. -/
def c6WitnessPayload : PyVal :=
  .obj [("success", .bool false),
        ("results", .list
          [.obj [("expectation_config", .obj
                    [("type", .str "expect_column_to_exist"),
                     ("severity", .str "critical"),
                     ("meta", .obj [("expectation_id", .str "e1")])]),
                 ("result", .obj []),
                 ("success", .bool true)],
           c6FailEntryCritical,
           .obj [("expectation_config", .obj
                    [("type", .str "expect_column_values_to_be_unique"),
                     ("severity", .str "info"),
                     ("meta", .obj [("expectation_id", .str "e3")])]),
                 ("result", .obj []),
                 ("success", .bool true)],
           c6FailEntryWarning,
           .obj [("expectation_config", .obj
                    [("type", .str "expect_table_row_count_to_be_between"),
                     ("severity", .str "warning"),
                     ("meta", .obj [("expectation_id", .str "e5")])]),
                 ("result", .obj []),
                 ("success", .bool true)]]),
        ("statistics", .obj [("evaluated_expectations", .int 5),
                             ("successful_expectations", .int 3),
                             ("unsuccessful_expectations", .int 2),
                             ("success_percent", .float 60)]),
        ("meta", .obj [("validation_time", .str "20240101T000000")]),
        ("suite_name", .str "sample")]

/-- The severity-bucket entry built from a FAIL detail record. -/
def bucketEntryOf (d : ExpectationDetail) : FailBucketEntry :=
  { expectation_id := d.expectation_id, column := d.column
    invalid_percentage := detailBucketPct d }

/-- The sort key of a FAIL detail record, as a total function. -/
def detailKeyOf (d : ExpectationDetail) : PyVal :=
  match d.failure_info with
  | some fi => fi.invalid_percentage
  | none => .null

/-! ## Theorems -/

theorem exceptMapList_setVal (ys : List SetVal) :
    exceptMapList parseSetVal (ys.map setValVal) = .ok ys := by
  induction ys with
  | nil => rfl
  | cons y ys ih =>
      cases y <;> simp_all [setValVal, parseSetVal, exceptMapList, bind, Except.bind]

theorem exceptMapList_strList (ys : List String) :
    exceptMapList (fun v => match v with
      | PyVal.str s => Except.ok s
      | _ => Except.error "column_list: string required") (ys.map PyVal.str) = .ok ys := by
  induction ys with
  | nil => rfl
  | cons y ys ih => simp_all [exceptMapList, bind, Except.bind]

/-- Reconstructing a valid pydantic expectation from its own type tag and
extracted kwargs recovers the expectation exactly. -/
theorem create_pydantic_roundtrip (e : GreatExpectation) (h : e.wfb = true) :
    create_pydantic_expectation e.expectation_type (expectationKwargs e) = .ok e := by
  cases e with
  | expectColumnToExist c =>
      simp [create_pydantic_expectation, expectation_mapping, expectationKwargs,
        GreatExpectation.model_dump, GreatExpectation.expectation_type, List.filter,
        parseExpectColumnToExist, checkTag, parseStr, getOpt, PyDict.get?, List.find?,
        bind, Except.bind]
  | expectColumnValuesToNotBeNull c mo =>
      simp only [GreatExpectation.wfb, mostlyOk] at h
      rcases mo with _ | q <;>
        simp_all [create_pydantic_expectation, expectation_mapping, expectationKwargs,
          GreatExpectation.model_dump, GreatExpectation.expectation_type, List.filter,
          parseExpectColumnValuesToNotBeNull, checkTag, parseStr, parseMostly, getOpt,
          PyDict.get?, List.find?, optRatVal, bind, Except.bind, decide_eq_true_eq]
  | expectColumnValuesToBeUnique c mo =>
      simp only [GreatExpectation.wfb, mostlyOk] at h
      rcases mo with _ | q <;>
        simp_all [create_pydantic_expectation, expectation_mapping, expectationKwargs,
          GreatExpectation.model_dump, GreatExpectation.expectation_type, List.filter,
          parseExpectColumnValuesToBeUnique, checkTag, parseStr, parseMostly, getOpt,
          PyDict.get?, List.find?, optRatVal, bind, Except.bind, decide_eq_true_eq]
  | expectCompoundColumnsToBeUnique cl =>
      simp [create_pydantic_expectation, expectation_mapping, expectationKwargs,
        GreatExpectation.model_dump, GreatExpectation.expectation_type, List.filter,
        parseExpectCompoundColumnsToBeUnique, parseColumnList, exceptMapList_strList,
        checkTag, getOpt, PyDict.get?, List.find?, bind, Except.bind]
  | expectColumnValuesToBeInSet c vs mo =>
      simp only [GreatExpectation.wfb, mostlyOk] at h
      rcases mo with _ | q <;>
        simp_all [create_pydantic_expectation, expectation_mapping, expectationKwargs,
          GreatExpectation.model_dump, GreatExpectation.expectation_type, List.filter,
          parseExpectColumnValuesToBeInSet, parseValueSet, exceptMapList_setVal, checkTag,
          parseStr, parseMostly, getOpt, PyDict.get?, List.find?, optRatVal,
          bind, Except.bind, decide_eq_true_eq]
  | expectColumnValuesToMatchRegex c r mo =>
      simp only [GreatExpectation.wfb, mostlyOk] at h
      rcases mo with _ | q <;>
        simp_all [create_pydantic_expectation, expectation_mapping, expectationKwargs,
          GreatExpectation.model_dump, GreatExpectation.expectation_type, List.filter,
          parseExpectColumnValuesToMatchRegex, checkTag, parseStr, parseMostly, getOpt,
          PyDict.get?, List.find?, optRatVal, bind, Except.bind, decide_eq_true_eq]
  | expectColumnValuesToBeBetween c mn mx mo =>
      simp only [GreatExpectation.wfb, Bool.and_eq_true, Bool.or_eq_true, mostlyOk] at h
      rcases mo with _ | q <;> rcases mn with _ | (n | n) <;> rcases mx with _ | (m | m) <;>
        simp_all [create_pydantic_expectation, expectation_mapping, expectationKwargs,
          GreatExpectation.model_dump, GreatExpectation.expectation_type, List.filter,
          parseExpectColumnValuesToBeBetween, checkTag, parseStr, parseOptNum,
          parseMostly, atLeastOneBound, getOpt, PyDict.get?, List.find?, optNumVal,
          optRatVal, pyNumVal, bind, Except.bind, decide_eq_true_eq]
  | expectColumnValuesToBeOfType c t =>
      simp [create_pydantic_expectation, expectation_mapping, expectationKwargs,
        GreatExpectation.model_dump, GreatExpectation.expectation_type, List.filter,
        parseExpectColumnValuesToBeOfType, checkTag, parseStr, getOpt, PyDict.get?,
        List.find?, bind, Except.bind]
  | expectColumnMeanToBeBetween c mn mx =>
      simp only [GreatExpectation.wfb, Bool.or_eq_true] at h
      rcases mn with _ | (n | n) <;> rcases mx with _ | (m | m) <;>
        simp_all [create_pydantic_expectation, expectation_mapping, expectationKwargs,
          GreatExpectation.model_dump, GreatExpectation.expectation_type, List.filter,
          parseExpectColumnMeanToBeBetween, checkTag, parseStr, parseOptNum,
          atLeastOneBound, getOpt, PyDict.get?, List.find?, optNumVal, pyNumVal,
          bind, Except.bind]
  | expectTableRowCountToBeBetween mn mx =>
      simp only [GreatExpectation.wfb, Bool.or_eq_true] at h
      rcases mn with _ | n <;> rcases mx with _ | m <;>
        simp_all [create_pydantic_expectation, expectation_mapping, expectationKwargs,
          GreatExpectation.model_dump, GreatExpectation.expectation_type, List.filter,
          parseExpectTableRowCountToBeBetween, checkTag, parseOptInt, atLeastOneBound,
          getOpt, PyDict.get?, List.find?, optIntVal, bind, Except.bind]
  | expectColumnMinToBeBetween c mn mx =>
      simp only [GreatExpectation.wfb, Bool.or_eq_true] at h
      rcases mn with _ | (n | n) <;> rcases mx with _ | (m | m) <;>
        simp_all [create_pydantic_expectation, expectation_mapping, expectationKwargs,
          GreatExpectation.model_dump, GreatExpectation.expectation_type, List.filter,
          parseExpectColumnMinToBeBetween, checkTag, parseStr, parseOptNum,
          atLeastOneBound, getOpt, PyDict.get?, List.find?, optNumVal, pyNumVal,
          bind, Except.bind]
  | expectColumnMaxToBeBetween c mn mx =>
      simp only [GreatExpectation.wfb, Bool.or_eq_true] at h
      rcases mn with _ | (n | n) <;> rcases mx with _ | (m | m) <;>
        simp_all [create_pydantic_expectation, expectation_mapping, expectationKwargs,
          GreatExpectation.model_dump, GreatExpectation.expectation_type, List.filter,
          parseExpectColumnMaxToBeBetween, checkTag, parseStr, parseOptNum,
          atLeastOneBound, getOpt, PyDict.get?, List.find?, optNumVal, pyNumVal,
          bind, Except.bind]
  | expectColumnSumToBeBetween c mn mx =>
      simp only [GreatExpectation.wfb, Bool.or_eq_true] at h
      rcases mn with _ | (n | n) <;> rcases mx with _ | (m | m) <;>
        simp_all [create_pydantic_expectation, expectation_mapping, expectationKwargs,
          GreatExpectation.model_dump, GreatExpectation.expectation_type, List.filter,
          parseExpectColumnSumToBeBetween, checkTag, parseStr, parseOptNum,
          atLeastOneBound, getOpt, PyDict.get?, List.find?, optNumVal, pyNumVal,
          bind, Except.bind]

/-- Converting one valid wrapped expectation to a native configuration and
back preserves everything except the severity, which resets to `critical`. -/
theorem gx_config_roundtrip (e : ExpectationWithMetadata) (i : Nat)
    (h : e.wfb = true) :
    gx_config_to_pydantic_expectation (pydantic_expectation_to_gx_config e) i =
      .ok { e with severity := .critical } := by
  simp only [ExpectationWithMetadata.wfb, Bool.and_eq_true] at h
  obtain ⟨hwf, hu⟩ := h
  simp [gx_config_to_pydantic_expectation, pydantic_expectation_to_gx_config,
    strDictGet, List.find?, create_pydantic_roundtrip e.expectation hwf,
    mkExpectationWithMetadata, hu, bind, Except.bind]

theorem convertConfigs_roundtrip (l : List ExpectationWithMetadata) (i : Nat)
    (h : ∀ e ∈ l, e.wfb = true) :
    convertConfigsFrom i (l.map pydantic_expectation_to_gx_config) =
      .ok (l.map (fun e => { e with severity := Severity.critical })) := by
  induction l generalizing i with
  | nil => rfl
  | cons e l ih =>
      simp [convertConfigsFrom, gx_config_roundtrip e i (h e (by simp)),
        ih (i + 1) (fun x hx => h x (by simp [hx])), bind, Except.bind]

/-- C1.  For every valid suite (all construction invariants hold),
converting to the native form and back yields a suite with the same number of
rules, in the same order, with identical kinds, parameter values, `id`,
`description` and `source`, and with every severity reset to `critical`. -/
theorem C1_pydantic_gx_roundtrip (s : GreatExpectationsSuite)
    (suite_name : Option String) (now : String) (h : s.wfb = true) :
    gx_suite_to_pydantic (pydantic_to_gx_suite s suite_name now) =
      .ok { expectations :=
              s.expectations.map (fun e => { e with severity := Severity.critical }) } := by
  have hall : ∀ e ∈ s.expectations, e.wfb = true :=
    List.all_eq_true.mp h
  simp [gx_suite_to_pydantic, pydantic_to_gx_suite,
    convertConfigs_roundtrip s.expectations 0 hall, bind, Except.bind]

/-- Witness for C1 at the repository's own sample suite. -/
theorem C1_pydantic_gx_roundtrip_witness :
    sampleSuite.wfb = true ∧
    gx_suite_to_pydantic (pydantic_to_gx_suite sampleSuite none "20240101_000000") =
      .ok { expectations :=
              sampleSuite.expectations.map (fun e => { e with severity := Severity.critical }) } :=
  ⟨by decide, C1_pydantic_gx_roundtrip sampleSuite none "20240101_000000" (by decide)⟩

/-- Re-validating the `exclude_none` dump of a valid union-member expectation
(with its `mostly` fields set) recovers the expectation exactly. -/
theorem parseUnion_dump (e : GreatExpectation) (h : e.wfb = true)
    (hu : e.inUnion = true) (hm : e.mostlySomeb = true) :
    parseUnionExpectation e.dumpExcludeNone = .ok e := by
  cases e with
  | expectColumnToExist c =>
      simp [parseUnionExpectation, unionMembers, GreatExpectation.dumpExcludeNone,
        GreatExpectation.model_dump, List.filter, PyVal.isNull,
        parseExpectColumnToExist, checkTag, parseStr, getOpt, PyDict.get?, List.find?,
        bind, Except.bind]
  | expectColumnValuesToNotBeNull c mo =>
      simp only [GreatExpectation.wfb, mostlyOk, GreatExpectation.mostlySomeb] at h hm
      rcases mo with _ | q <;>
        simp_all [parseUnionExpectation, unionMembers, GreatExpectation.dumpExcludeNone,
          GreatExpectation.model_dump, List.filter, PyVal.isNull,
          parseExpectColumnValuesToNotBeNull, checkTag, parseStr, parseMostly, getOpt,
          PyDict.get?, List.find?, optRatVal, bind, Except.bind, decide_eq_true_eq]
  | expectColumnValuesToBeUnique c mo =>
      simp only [GreatExpectation.wfb, mostlyOk, GreatExpectation.mostlySomeb] at h hm
      rcases mo with _ | q <;>
        simp_all [parseUnionExpectation, unionMembers, GreatExpectation.dumpExcludeNone,
          GreatExpectation.model_dump, List.filter, PyVal.isNull,
          parseExpectColumnValuesToBeUnique, checkTag, parseStr, parseMostly, getOpt,
          PyDict.get?, List.find?, optRatVal, bind, Except.bind, decide_eq_true_eq]
  | expectCompoundColumnsToBeUnique cl =>
      simp [GreatExpectation.inUnion] at hu
  | expectColumnValuesToBeInSet c vs mo =>
      simp only [GreatExpectation.wfb, mostlyOk, GreatExpectation.mostlySomeb] at h hm
      rcases mo with _ | q <;>
        simp_all [parseUnionExpectation, unionMembers, GreatExpectation.dumpExcludeNone,
          GreatExpectation.model_dump, List.filter, PyVal.isNull,
          parseExpectColumnValuesToBeInSet, parseValueSet, exceptMapList_setVal, checkTag,
          parseStr, parseMostly, getOpt, PyDict.get?, List.find?, optRatVal,
          bind, Except.bind, decide_eq_true_eq]
  | expectColumnValuesToMatchRegex c r mo =>
      simp only [GreatExpectation.wfb, mostlyOk, GreatExpectation.mostlySomeb] at h hm
      rcases mo with _ | q <;>
        simp_all [parseUnionExpectation, unionMembers, GreatExpectation.dumpExcludeNone,
          GreatExpectation.model_dump, List.filter, PyVal.isNull,
          parseExpectColumnValuesToMatchRegex, checkTag, parseStr, parseMostly, getOpt,
          PyDict.get?, List.find?, optRatVal, bind, Except.bind, decide_eq_true_eq]
  | expectColumnValuesToBeBetween c mn mx mo =>
      simp only [GreatExpectation.wfb, Bool.and_eq_true, Bool.or_eq_true, mostlyOk,
        GreatExpectation.mostlySomeb] at h hm
      rcases mo with _ | q <;> rcases mn with _ | (n | n) <;> rcases mx with _ | (m | m) <;>
        simp_all [parseUnionExpectation, unionMembers, GreatExpectation.dumpExcludeNone,
          GreatExpectation.model_dump, List.filter, PyVal.isNull,
          parseExpectColumnValuesToBeBetween, checkTag, parseStr, parseOptNum,
          parseMostly, atLeastOneBound, getOpt, PyDict.get?, List.find?, optNumVal,
          optRatVal, pyNumVal, bind, Except.bind, decide_eq_true_eq]
  | expectColumnValuesToBeOfType c t =>
      simp [parseUnionExpectation, unionMembers, GreatExpectation.dumpExcludeNone,
        GreatExpectation.model_dump, List.filter, PyVal.isNull,
        parseExpectColumnValuesToBeOfType, checkTag, parseStr, getOpt, PyDict.get?,
        List.find?, bind, Except.bind]
  | expectColumnMeanToBeBetween c mn mx =>
      simp only [GreatExpectation.wfb, Bool.or_eq_true] at h
      rcases mn with _ | (n | n) <;> rcases mx with _ | (m | m) <;>
        simp_all [parseUnionExpectation, unionMembers, GreatExpectation.dumpExcludeNone,
          GreatExpectation.model_dump, List.filter, PyVal.isNull,
          parseExpectColumnMeanToBeBetween, checkTag, parseStr, parseOptNum,
          atLeastOneBound, getOpt, PyDict.get?, List.find?, optNumVal, pyNumVal,
          bind, Except.bind]
  | expectTableRowCountToBeBetween mn mx =>
      simp only [GreatExpectation.wfb, Bool.or_eq_true] at h
      rcases mn with _ | n <;> rcases mx with _ | m <;>
        simp_all [parseUnionExpectation, unionMembers, GreatExpectation.dumpExcludeNone,
          GreatExpectation.model_dump, List.filter, PyVal.isNull,
          parseExpectTableRowCountToBeBetween, checkTag, parseOptInt, atLeastOneBound,
          getOpt, PyDict.get?, List.find?, optIntVal, bind, Except.bind]
  | expectColumnMinToBeBetween c mn mx =>
      simp only [GreatExpectation.wfb, Bool.or_eq_true] at h
      rcases mn with _ | (n | n) <;> rcases mx with _ | (m | m) <;>
        simp_all [parseUnionExpectation, unionMembers, GreatExpectation.dumpExcludeNone,
          GreatExpectation.model_dump, List.filter, PyVal.isNull,
          parseExpectColumnMinToBeBetween, checkTag, parseStr, parseOptNum,
          atLeastOneBound, getOpt, PyDict.get?, List.find?, optNumVal, pyNumVal,
          bind, Except.bind]
  | expectColumnMaxToBeBetween c mn mx =>
      simp only [GreatExpectation.wfb, Bool.or_eq_true] at h
      rcases mn with _ | (n | n) <;> rcases mx with _ | (m | m) <;>
        simp_all [parseUnionExpectation, unionMembers, GreatExpectation.dumpExcludeNone,
          GreatExpectation.model_dump, List.filter, PyVal.isNull,
          parseExpectColumnMaxToBeBetween, checkTag, parseStr, parseOptNum,
          atLeastOneBound, getOpt, PyDict.get?, List.find?, optNumVal, pyNumVal,
          bind, Except.bind]
  | expectColumnSumToBeBetween c mn mx =>
      simp only [GreatExpectation.wfb, Bool.or_eq_true] at h
      rcases mn with _ | (n | n) <;> rcases mx with _ | (m | m) <;>
        simp_all [parseUnionExpectation, unionMembers, GreatExpectation.dumpExcludeNone,
          GreatExpectation.model_dump, List.filter, PyVal.isNull,
          parseExpectColumnSumToBeBetween, checkTag, parseStr, parseOptNum,
          atLeastOneBound, getOpt, PyDict.get?, List.find?, optNumVal, pyNumVal,
          bind, Except.bind]

/-- Re-validating the `exclude_none` dump of a valid wrapped expectation
recovers it field for field, its severity included. -/
theorem parseEWM_dump (e : ExpectationWithMetadata) (h : e.wfb = true)
    (hm : e.expectation.mostlySomeb = true) :
    parseExpectationWithMetadata (expectationWithMetadataDump e) = .ok e := by
  simp only [ExpectationWithMetadata.wfb, Bool.and_eq_true] at h
  obtain ⟨hwf, hu⟩ := h
  obtain ⟨id, expectation, description, source, severity⟩ := e
  cases severity <;>
    simp_all [parseExpectationWithMetadata, expectationWithMetadataDump, parseStr,
      getOpt, PyDict.get?, List.find?, parseSeverity, Severity.toStr,
      parseUnion_dump expectation hwf hu hm, bind, Except.bind]

theorem exceptMapList_ewmDump (l : List ExpectationWithMetadata)
    (h : ∀ e ∈ l, e.wfb = true ∧ e.expectation.mostlySomeb = true) :
    exceptMapList parseExpectationWithMetadata (l.map expectationWithMetadataDump) =
      .ok l := by
  induction l with
  | nil => rfl
  | cons e l ih =>
      have he := h e (by simp)
      simp [exceptMapList, parseEWM_dump e he.1 he.2,
        ih (fun x hx => h x (by simp [hx])), bind, Except.bind]

theorem noNullList_setVal (vs : List SetVal) :
    noNullList (vs.map setValVal) = true := by
  induction vs with
  | nil => simp [noNullList]
  | cons v vs ih => cases v <;> simp_all [setValVal, noNullList, PyVal.noNull]

theorem noNullList_str (xs : List String) :
    noNullList (xs.map PyVal.str) = true := by
  induction xs with
  | nil => simp [noNullList]
  | cons x xs ih => simp_all [noNullList, PyVal.noNull]

/-- The `exclude_none` dump of an expectation model contains no nulls. -/
theorem dumpExcludeNone_noNull (e : GreatExpectation) :
    noNullFields e.dumpExcludeNone = true := by
  cases e with
  | expectColumnToExist c =>
      simp [GreatExpectation.dumpExcludeNone, GreatExpectation.model_dump, List.filter,
        PyVal.isNull, noNullFields, PyVal.noNull]
  | expectColumnValuesToNotBeNull c mo =>
      rcases mo with _ | q <;>
        simp [GreatExpectation.dumpExcludeNone, GreatExpectation.model_dump, List.filter,
          PyVal.isNull, noNullFields, PyVal.noNull, optRatVal]
  | expectColumnValuesToBeUnique c mo =>
      rcases mo with _ | q <;>
        simp [GreatExpectation.dumpExcludeNone, GreatExpectation.model_dump, List.filter,
          PyVal.isNull, noNullFields, PyVal.noNull, optRatVal]
  | expectCompoundColumnsToBeUnique cl =>
      simp [GreatExpectation.dumpExcludeNone, GreatExpectation.model_dump, List.filter,
        PyVal.isNull, noNullFields, PyVal.noNull, noNullList_str]
  | expectColumnValuesToBeInSet c vs mo =>
      rcases mo with _ | q <;>
        simp [GreatExpectation.dumpExcludeNone, GreatExpectation.model_dump, List.filter,
          PyVal.isNull, noNullFields, PyVal.noNull, optRatVal, noNullList_setVal]
  | expectColumnValuesToMatchRegex c r mo =>
      rcases mo with _ | q <;>
        simp [GreatExpectation.dumpExcludeNone, GreatExpectation.model_dump, List.filter,
          PyVal.isNull, noNullFields, PyVal.noNull, optRatVal]
  | expectColumnValuesToBeBetween c mn mx mo =>
      rcases mo with _ | q <;> rcases mn with _ | (n | n) <;> rcases mx with _ | (m | m) <;>
        simp [GreatExpectation.dumpExcludeNone, GreatExpectation.model_dump, List.filter,
          PyVal.isNull, noNullFields, PyVal.noNull, optRatVal, optNumVal, pyNumVal]
  | expectColumnValuesToBeOfType c t =>
      simp [GreatExpectation.dumpExcludeNone, GreatExpectation.model_dump, List.filter,
        PyVal.isNull, noNullFields, PyVal.noNull]
  | expectColumnMeanToBeBetween c mn mx =>
      rcases mn with _ | (n | n) <;> rcases mx with _ | (m | m) <;>
        simp [GreatExpectation.dumpExcludeNone, GreatExpectation.model_dump, List.filter,
          PyVal.isNull, noNullFields, PyVal.noNull, optNumVal, pyNumVal]
  | expectTableRowCountToBeBetween mn mx =>
      rcases mn with _ | n <;> rcases mx with _ | m <;>
        simp [GreatExpectation.dumpExcludeNone, GreatExpectation.model_dump, List.filter,
          PyVal.isNull, noNullFields, PyVal.noNull, optIntVal]
  | expectColumnMinToBeBetween c mn mx =>
      rcases mn with _ | (n | n) <;> rcases mx with _ | (m | m) <;>
        simp [GreatExpectation.dumpExcludeNone, GreatExpectation.model_dump, List.filter,
          PyVal.isNull, noNullFields, PyVal.noNull, optNumVal, pyNumVal]
  | expectColumnMaxToBeBetween c mn mx =>
      rcases mn with _ | (n | n) <;> rcases mx with _ | (m | m) <;>
        simp [GreatExpectation.dumpExcludeNone, GreatExpectation.model_dump, List.filter,
          PyVal.isNull, noNullFields, PyVal.noNull, optNumVal, pyNumVal]
  | expectColumnSumToBeBetween c mn mx =>
      rcases mn with _ | (n | n) <;> rcases mx with _ | (m | m) <;>
        simp [GreatExpectation.dumpExcludeNone, GreatExpectation.model_dump, List.filter,
          PyVal.isNull, noNullFields, PyVal.noNull, optNumVal, pyNumVal]

theorem ewmDump_noNull (e : ExpectationWithMetadata) :
    (expectationWithMetadataDump e).noNull = true := by
  simp [expectationWithMetadataDump, PyVal.noNull, noNullFields, dumpExcludeNone_noNull]

/-- The serialized document tree of any suite contains no null placeholders:
absent or `None`-valued optional fields are omitted, not emitted. -/
theorem suiteDump_noNull (s : GreatExpectationsSuite) :
    (suiteDump s).noNull = true := by
  have hl : ∀ l : List ExpectationWithMetadata,
      noNullList (l.map expectationWithMetadataDump) = true := by
    intro l
    induction l with
    | nil => simp [noNullList]
    | cons e l ih => simp_all [noNullList, ewmDump_noNull]
  simp [suiteDump, PyVal.noNull, noNullFields, hl]

/-- C2.  For every valid suite using only data-model fields (severities,
value-carrying `mostly` fields, optional bounds), deserializing the
serialization is the identity, for the JSON and the YAML encoding
independently; both encodings omit absent optional fields (no null
placeholders) and preserve list order — the round trip restores the
expectation list exactly. -/
theorem C2_serialization_roundtrip (s : GreatExpectationsSuite)
    (h : s.serialWfb = true) :
    deserialize_from_json (serialize_to_json s) = .ok s ∧
    deserialize_from_yaml (serialize_to_yaml s) = .ok s ∧
    (serialize_to_json s).noNull = true ∧
    (serialize_to_yaml s).noNull = true := by
  simp only [GreatExpectationsSuite.serialWfb, GreatExpectationsSuite.wfb,
    Bool.and_eq_true, List.all_eq_true] at h
  have hboth : ∀ e ∈ s.expectations, e.wfb = true ∧ e.expectation.mostlySomeb = true :=
    fun e he => ⟨h.1 e he, h.2 e he⟩
  have hparse : parseGreatExpectationsSuite (suiteDump s) = .ok s := by
    simp [parseGreatExpectationsSuite, suiteDump, getOpt, PyDict.get?, List.find?,
      exceptMapList_ewmDump s.expectations hboth, bind, Except.bind]
  exact ⟨hparse, hparse, suiteDump_noNull s, suiteDump_noNull s⟩

/-- Witness for C2 at the repository's sample suite. -/
theorem C2_serialization_roundtrip_witness :
    sampleSuite.serialWfb = true ∧
    deserialize_from_json (serialize_to_json sampleSuite) = .ok sampleSuite ∧
    deserialize_from_yaml (serialize_to_yaml sampleSuite) = .ok sampleSuite :=
  ⟨by decide,
   (C2_serialization_roundtrip sampleSuite (by decide)).1,
   (C2_serialization_roundtrip sampleSuite (by decide)).2.1⟩

/-- C3.  Constructing any of the ranged rule kinds listed by the spec
(values-between, mean-between, row-count-between, min-between, max-between,
sum-between) with both bounds absent fails with a validation error, and
constructing with exactly one bound present succeeds. -/
theorem C3_ranged_bounds_invariant (c : String) (v : PyNum) (n : Int) :
    (create_pydantic_expectation "expect_column_values_to_be_between"
        [("column", .str c)] =
      .error "At least one of min_value or max_value must be specified" ∧
     create_pydantic_expectation "expect_column_values_to_be_between"
        [("column", .str c), ("min_value", pyNumVal v)] =
      .ok (.expectColumnValuesToBeBetween c (some v) none (some 1)) ∧
     create_pydantic_expectation "expect_column_values_to_be_between"
        [("column", .str c), ("max_value", pyNumVal v)] =
      .ok (.expectColumnValuesToBeBetween c none (some v) (some 1))) ∧
    (create_pydantic_expectation "expect_column_mean_to_be_between"
        [("column", .str c)] =
      .error "At least one of min_value or max_value must be specified" ∧
     create_pydantic_expectation "expect_column_mean_to_be_between"
        [("column", .str c), ("min_value", pyNumVal v)] =
      .ok (.expectColumnMeanToBeBetween c (some v) none) ∧
     create_pydantic_expectation "expect_column_mean_to_be_between"
        [("column", .str c), ("max_value", pyNumVal v)] =
      .ok (.expectColumnMeanToBeBetween c none (some v))) ∧
    (create_pydantic_expectation "expect_table_row_count_to_be_between" [] =
      .error "At least one of min_value or max_value must be specified" ∧
     create_pydantic_expectation "expect_table_row_count_to_be_between"
        [("min_value", .int n)] =
      .ok (.expectTableRowCountToBeBetween (some n) none) ∧
     create_pydantic_expectation "expect_table_row_count_to_be_between"
        [("max_value", .int n)] =
      .ok (.expectTableRowCountToBeBetween none (some n))) ∧
    (create_pydantic_expectation "expect_column_min_to_be_between"
        [("column", .str c)] =
      .error "At least one of min_value or max_value must be specified" ∧
     create_pydantic_expectation "expect_column_min_to_be_between"
        [("column", .str c), ("min_value", pyNumVal v)] =
      .ok (.expectColumnMinToBeBetween c (some v) none) ∧
     create_pydantic_expectation "expect_column_min_to_be_between"
        [("column", .str c), ("max_value", pyNumVal v)] =
      .ok (.expectColumnMinToBeBetween c none (some v))) ∧
    (create_pydantic_expectation "expect_column_max_to_be_between"
        [("column", .str c)] =
      .error "At least one of min_value or max_value must be specified" ∧
     create_pydantic_expectation "expect_column_max_to_be_between"
        [("column", .str c), ("min_value", pyNumVal v)] =
      .ok (.expectColumnMaxToBeBetween c (some v) none) ∧
     create_pydantic_expectation "expect_column_max_to_be_between"
        [("column", .str c), ("max_value", pyNumVal v)] =
      .ok (.expectColumnMaxToBeBetween c none (some v))) ∧
    (create_pydantic_expectation "expect_column_sum_to_be_between"
        [("column", .str c)] =
      .error "At least one of min_value or max_value must be specified" ∧
     create_pydantic_expectation "expect_column_sum_to_be_between"
        [("column", .str c), ("min_value", pyNumVal v)] =
      .ok (.expectColumnSumToBeBetween c (some v) none) ∧
     create_pydantic_expectation "expect_column_sum_to_be_between"
        [("column", .str c), ("max_value", pyNumVal v)] =
      .ok (.expectColumnSumToBeBetween c none (some v))) := by
  cases v <;> exact ⟨⟨rfl, rfl, rfl⟩, ⟨rfl, rfl, rfl⟩, ⟨rfl, rfl, rfl⟩,
    ⟨rfl, rfl, rfl⟩, ⟨rfl, rfl, rfl⟩, ⟨rfl, rfl, rfl⟩⟩

theorem convertConfigs_error_of_unsupported (l : List ExpectationConfiguration) :
    ∀ i : Nat, (∃ c ∈ l, c.type ∉ expectation_mapping.map Prod.fst) →
      ∃ msg, convertConfigsFrom i l = .error msg := by
  induction l with
  | nil =>
      intro i h
      obtain ⟨c, hc, _⟩ := h
      cases hc
  | cons c l ih =>
      intro i h
      obtain ⟨c2, hc2, hbad⟩ := h
      rcases List.mem_cons.mp hc2 with hc2 | hc2
      · subst hc2
        have hfind : expectation_mapping.find? (fun p => p.1 = c2.type) = none := by
          rw [List.find?_eq_none]
          intro x hx
          simp only [decide_eq_true_eq]
          intro hx1
          exact hbad (hx1 ▸ List.mem_map_of_mem Prod.fst hx)
        refine ⟨"Unsupported expectation type: " ++ c2.type, ?_⟩
        simp [convertConfigsFrom, gx_config_to_pydantic_expectation,
          create_pydantic_expectation, hfind, bind, Except.bind]
      · obtain ⟨msg, hmsg⟩ := ih (i + 1) ⟨c2, hc2, hbad⟩
        cases he : gx_config_to_pydantic_expectation c i with
        | error m => exact ⟨m, by simp [convertConfigsFrom, he, bind, Except.bind]⟩
        | ok e => exact ⟨msg, by simp [convertConfigsFrom, he, hmsg, bind, Except.bind]⟩

/-- C4.  A native suite containing any configuration whose type tag is
missing from the conversion lookup table fails wholesale: the conversion
returns an error, never a partially constructed suite. -/
theorem C4_unsupported_tag_rejected (g : ExpectationSuite)
    (h : ∃ c ∈ g.expectations, c.type ∉ expectation_mapping.map Prod.fst) :
    ∃ msg, gx_suite_to_pydantic g = .error msg := by
  obtain ⟨msg, hmsg⟩ := convertConfigs_error_of_unsupported g.expectations 0 h
  exact ⟨msg, by simp [gx_suite_to_pydantic, hmsg, bind, Except.bind]⟩

/-- Witness for C4 at a two-rule suite whose second rule has an unknown tag. -/
theorem C4_unsupported_tag_rejected_witness :
    (∃ c ∈ unsupportedTagSuite.expectations,
        c.type ∉ expectation_mapping.map Prod.fst) ∧
    ∃ msg, gx_suite_to_pydantic unsupportedTagSuite = .error msg :=
  ⟨⟨{ type := "expect_column_values_to_be_increasing",
      kwargs := [("column", .str "a")], meta := [], severity := .CRITICAL },
    by simp [unsupportedTagSuite], by decide⟩,
   C4_unsupported_tag_rejected unsupportedTagSuite
    ⟨{ type := "expect_column_values_to_be_increasing",
       kwargs := [("column", .str "a")], meta := [], severity := .CRITICAL },
     by simp [unsupportedTagSuite], by decide⟩⟩

/-- C5.  The validator marks an empty suite invalid with a non-empty error
list; in general the returned boolean is `true` iff the suite has at least
one rule, no structural error was recorded, and every per-rule check is
valid; an empty name never affects the verdict. -/
theorem C5_validator_verdict (g : ExpectationSuite) (now : String) :
    (g.expectations = [] →
      (validate_gx_suite g now).1 = false ∧
      (validate_gx_suite g now).2.validation_errors ≠ []) ∧
    ((validate_gx_suite g now).1 = true ↔
      (g.expectations ≠ [] ∧
       (validate_gx_suite g now).2.validation_errors = [] ∧
       ∀ d ∈ (validate_gx_suite g now).2.expectation_details, d.is_valid = true)) ∧
    (validate_gx_suite { g with name := "" } now).1 = (validate_gx_suite g now).1 := by
  refine ⟨?_, ?_, ?_⟩
  · intro hempty
    simp [validate_gx_suite, hempty]
  · cases hl : g.expectations with
    | nil => simp [validate_gx_suite, hl]
    | cons c l =>
        simp [validate_gx_suite, hl, List.all_eq_true]
  · simp [validate_gx_suite]

/-- Witness for C5 at the empty native suite. -/
theorem C5_validator_verdict_witness :
    (validate_gx_suite emptyGxSuite "t").1 = false ∧
    (validate_gx_suite emptyGxSuite "t").2.validation_errors ≠ [] :=
  (C5_validator_verdict emptyGxSuite "t").1 rfl

/-- C7.  Whenever the reverse conversion of the configuration at 0-based
position `i` succeeds, the reconstructed metadata takes the native metadata
mapping's values when present and otherwise the defaults `exp_<i+1>`,
`Expectation for <type tag>` and `GX Suite Import`. -/
theorem C7_metadata_defaults (c : ExpectationConfiguration) (i : Nat)
    (e : ExpectationWithMetadata)
    (h : gx_config_to_pydantic_expectation c i = .ok e) :
    e.id = (strDictGet c.meta "expectation_id").getD ("exp_" ++ toString (i + 1)) ∧
    e.description =
      (strDictGet c.meta "description").getD ("Expectation for " ++ c.type) ∧
    e.source = (strDictGet c.meta "source").getD "GX Suite Import" := by
  rw [gx_config_to_pydantic_expectation] at h
  cases hc : create_pydantic_expectation c.type c.kwargs with
  | error m => rw [hc] at h; exact absurd h (by simp [bind, Except.bind])
  | ok pe =>
      rw [hc] at h
      simp only [bind, Except.bind, mkExpectationWithMetadata] at h
      split at h
      · cases h
        exact ⟨rfl, rfl, rfl⟩
      · cases h

/-- Witness for C7 at a configuration with an empty metadata mapping. -/
theorem C7_metadata_defaults_witness :
    ({ id := "exp_1", expectation := .expectColumnToExist "c"
       description := "Expectation for expect_column_to_exist"
       source := "GX Suite Import", severity := .critical } :
        ExpectationWithMetadata).id =
      (strDictGet bareConfig.meta "expectation_id").getD ("exp_" ++ toString (0 + 1)) ∧
    ({ id := "exp_1", expectation := .expectColumnToExist "c"
       description := "Expectation for expect_column_to_exist"
       source := "GX Suite Import", severity := .critical } :
        ExpectationWithMetadata).description =
      (strDictGet bareConfig.meta "description").getD
        ("Expectation for " ++ bareConfig.type) ∧
    ({ id := "exp_1", expectation := .expectColumnToExist "c"
       description := "Expectation for expect_column_to_exist"
       source := "GX Suite Import", severity := .critical } :
        ExpectationWithMetadata).source =
      (strDictGet bareConfig.meta "source").getD "GX Suite Import" :=
  C7_metadata_defaults bareConfig 0 _ rfl

/-- Counterexample to C8 as stated: the conversion lookup table does not
have 12 entries. -/
theorem C8_counterexample : ¬ (expectation_mapping.length = 12) := by decide

/-- C8 (amended).  The conversion lookup table has exactly 13 entries —
one per rule kind of the data model, the compound-columns kind included —
while the validator's supported-kind list has 14 entries, and the only tag
the validator accepts that the conversion table lacks is the retained
strftime legacy tag. -/
theorem C8_lookup_table_sizes :
    expectation_mapping.length = 13 ∧
    supported_types.length = 14 ∧
    supported_types.filter
        (fun t => !((expectation_mapping.map Prod.fst).contains t)) =
      ["expect_column_values_to_match_strftime_format"] ∧
    ∀ e : GreatExpectation, e.expectation_type ∈ expectation_mapping.map Prod.fst := by
  refine ⟨rfl, rfl, rfl, ?_⟩
  intro e
  cases e <;> simp [expectation_mapping, GreatExpectation.expectation_type]

/-- C9.  `get_pydantic_expectations_info()` never returns its list of
schema-text blocks: the `expectation_models` list references
`ExpectColumnValuesToMatchStrftimeFormat`, which the module neither imports
nor defines, so every call raises `NameError`. -/
theorem C9_prompt_info_name_error :
    get_pydantic_expectations_info =
      .error "NameError: name ExpectColumnValuesToMatchStrftimeFormat is not defined" ∧
    "ExpectColumnValuesToMatchStrftimeFormat" ∈ expectation_models ∧
    "ExpectColumnValuesToMatchStrftimeFormat" ∉ gx_promt_utils_imports :=
  ⟨rfl, by decide, by decide⟩

theorem isObj_exists (v : PyVal) (h : v.isObj = true) : ∃ fs, v = .obj fs := by
  cases v <;> simp_all [PyVal.isObj]

theorem fieldIsObj_objGetD (fs : List (String × PyVal)) (k : String)
    (h : fieldIsObjIfPresent fs k = true) :
    (objGetD (.obj fs) k (.obj [])).isObj = true := by
  unfold fieldIsObjIfPresent at h
  unfold objGetD
  cases hx : PyDict.get? fs k with
  | none => simp [hx, PyVal.isObj]
  | some v =>
      rw [hx] at h
      cases v <;> simp_all [PyVal.isObj]

theorem pyGetD_obj (fs : List (String × PyVal)) (k : String) (d : PyVal) :
    pyGetD (.obj fs) k d = .ok ((PyDict.get? fs k).getD d) := rfl

theorem pyContains_obj (fs : List (String × PyVal)) (k : String) :
    pyContains (.obj fs) k = .ok ((PyDict.get? fs k).isSome) := rfl

theorem ebind_ok {α β : Type} (a : α) (f : α → Except String β) :
    (Except.ok a : Except String α) >>= f = f a := rfl

theorem processResultEntry_eq (v : PyVal) (h : entryWellShaped v = true) :
    processResultEntry v = .ok (detailOf v) := by
  obtain ⟨fs, rfl⟩ : ∃ fs, v = .obj fs := by
    cases v <;> simp_all [entryWellShaped]
  unfold entryWellShaped at h
  simp only [Bool.and_eq_true] at h
  obtain ⟨⟨⟨hc, hr⟩, hcfg⟩, hres⟩ := h
  obtain ⟨cfs, hcfs⟩ := isObj_exists _ (fieldIsObj_objGetD fs "expectation_config" hc)
  obtain ⟨rfs, hrfs⟩ := isObj_exists _ (fieldIsObj_objGetD fs "result" hr)
  rw [hcfs] at hcfg
  simp only [Bool.and_eq_true] at hcfg
  obtain ⟨⟨⟨⟨hm, hkw⟩, hty⟩, hsev⟩, hcol⟩ := hcfg
  obtain ⟨mfs, hmfs⟩ := isObj_exists _ (fieldIsObj_objGetD cfs "meta" hm)
  obtain ⟨kfs, hkfs⟩ := isObj_exists _ (fieldIsObj_objGetD cfs "kwargs" hkw)
  simp only [objGetD] at hcfs hrfs hmfs hkfs
  unfold processResultEntry
  rw [pyGetD_obj, pyGetD_obj, ebind_ok, ebind_ok, hcfs, hrfs]
  rw [pyGetD_obj, ebind_ok, hmfs]
  rw [pyGetD_obj, ebind_ok]
  rw [pyGetD_obj, ebind_ok]
  rw [pyGetD_obj, ebind_ok, hkfs]
  rw [pyGetD_obj, ebind_ok]
  rw [pyGetD_obj, ebind_ok]
  rw [pyGetD_obj, ebind_ok]
  rw [pyGetD_obj, ebind_ok]
  rw [pyGetD_obj, ebind_ok]
  unfold detailOf failureInfoOf
  simp only [objGetD, objContains, hcfs, hrfs, hmfs, hkfs]
  rcases Bool.eq_false_or_eq_true
      (pyTruthy ((PyDict.get? fs "success").getD (PyVal.bool false))) with hsucc | hsucc <;>
    simp only [hsucc, Bool.false_eq_true, ite_false, ite_true]
  all_goals
    rw [pyGetD_obj, ebind_ok]
    rw [pyGetD_obj, ebind_ok]
    rw [pyGetD_obj, ebind_ok]
    rw [pyGetD_obj, ebind_ok]
    rw [pyGetD_obj, ebind_ok]
    rw [pyGetD_obj, ebind_ok]
    rw [pyContains_obj, ebind_ok]
    rcases Bool.eq_false_or_eq_true ((PyDict.get? rfs "missing_count").isSome) with
        hmis | hmis <;>
      simp only [hmis, Bool.false_eq_true, ite_false, ite_true, Except.map, ebind_ok] <;>
      try rfl

theorem exceptMapList_processResult (xs : List PyVal)
    (h : ∀ v ∈ xs, entryWellShaped v = true) :
    exceptMapList processResultEntry xs = .ok (xs.map detailOf) := by
  induction xs with
  | nil => rfl
  | cons x xs ih =>
      simp [exceptMapList, processResultEntry_eq x (h x (by simp)),
        ih (fun v hv => h v (by simp [hv])), bind, Except.bind]

theorem fieldIsStr_getD_str (fs : List (String × PyVal)) (k : String) (d : String)
    (h : fieldIsStrIfPresent fs k = true) :
    ∃ s, (PyDict.get? fs k).getD (.str d) = .str s := by
  unfold fieldIsStrIfPresent at h
  cases hx : PyDict.get? fs k with
  | none => exact ⟨d, by simp [hx]⟩
  | some v =>
      rw [hx] at h
      cases v <;> simp_all

/-- The shape facts about a well-shaped entry's detail record that the
failure-categorization loop and the sort rely on. -/
theorem detailOf_shape (v : PyVal) (h : entryWellShaped v = true) :
    (∃ s, (detailOf v).expectation_type = .str s) ∧
    ((detailOf v).column = .null ∨ ∃ s, (detailOf v).column = .str s) ∧
    ((detailOf v).status = "FAIL" →
      ∃ fi, (detailOf v).failure_info = some fi ∧
        fi.invalid_percentage.asNumber.isSome = true) := by
  obtain ⟨fs, rfl⟩ : ∃ fs, v = .obj fs := by
    cases v <;> simp_all [entryWellShaped]
  unfold entryWellShaped at h
  simp only [Bool.and_eq_true] at h
  obtain ⟨⟨⟨hc, hr⟩, hcfg⟩, hres⟩ := h
  obtain ⟨cfs, hcfs⟩ := isObj_exists _ (fieldIsObj_objGetD fs "expectation_config" hc)
  obtain ⟨rfs, hrfs⟩ := isObj_exists _ (fieldIsObj_objGetD fs "result" hr)
  rw [hcfs] at hcfg
  rw [hrfs] at hres
  simp only [Bool.and_eq_true] at hcfg
  obtain ⟨⟨⟨⟨hm, hkw⟩, hty⟩, hsev⟩, hcol⟩ := hcfg
  obtain ⟨kfs, hkfs⟩ := isObj_exists _ (fieldIsObj_objGetD cfs "kwargs" hkw)
  rw [hkfs] at hcol
  simp only [objGetD] at hcfs hrfs hkfs
  simp only [fieldIsNumIfPresent] at hres
  simp only [fieldIsStrIfPresent] at hcol
  refine ⟨?_, ?_, ?_⟩
  · obtain ⟨s, hs⟩ := fieldIsStr_getD_str cfs "type" "unknown" hty
    exact ⟨s, by simp [detailOf, objGetD, hcfs, hs]⟩
  · cases hx : PyDict.get? kfs "column" with
    | none => left; simp [detailOf, objGetD, hcfs, hkfs, hx]
    | some w =>
        rw [hx] at hcol
        cases w <;> simp_all [detailOf, objGetD, hcfs, hkfs, hx]
  · intro hfail
    rcases Bool.eq_false_or_eq_true
        (pyTruthy ((PyDict.get? fs "success").getD (PyVal.bool false))) with hsucc | hsucc
    · exfalso
      have hpass : (detailOf (PyVal.obj fs)).status = "PASS" := by
        simp [detailOf, objGetD, hsucc]
      simp [hpass] at hfail
    · refine ⟨failureInfoOf (.obj rfs), ?_, ?_⟩
      · simp [detailOf, objGetD, hrfs, hsucc]
      · unfold failureInfoOf objGetD
        cases hx : PyDict.get? rfs "unexpected_percent" with
        | none => simp [hx, PyVal.asNumber]
        | some w =>
            rw [hx] at hres
            cases w <;> simp_all [PyVal.asNumber]

theorem failAccStep_fail (acc : FailAcc) (d : ExpectationDetail)
    (hfail : d.status = "FAIL")
    (hty : pyHashable d.expectation_type = true)
    (hcol : pyHashable d.column = true) :
    failAccStep acc d = .ok
      { failed_by_type := dictIncr acc.failed_by_type d.expectation_type
        failed_by_column := if pyTruthy d.column then
            dictIncr acc.failed_by_column d.column else acc.failed_by_column
        critical_failures := if pyEq d.severity (.str "critical") then
            acc.critical_failures ++ [bucketEntryOf d] else acc.critical_failures
        warning_failures := if pyEq d.severity (.str "warning") then
            acc.warning_failures ++ [bucketEntryOf d] else acc.warning_failures
        info_failures := if pyEq d.severity (.str "info") then
            acc.info_failures ++ [bucketEntryOf d] else acc.info_failures } := by
  unfold failAccStep
  rw [if_pos hfail]
  rcases Bool.eq_false_or_eq_true (pyTruthy d.column) with hct | hct <;>
    simp [hty, hct, hcol, bucketEntryOf, bind, Except.bind]

theorem failAccStep_pass (acc : FailAcc) (d : ExpectationDetail)
    (hf : ¬ d.status = "FAIL") : failAccStep acc d = .ok acc := by
  unfold failAccStep
  rw [if_neg hf]

theorem failAcc_foldlM (details : List ExpectationDetail) :
    ∀ acc : FailAcc,
    (∀ d ∈ details, d.status = "FAIL" →
      pyHashable d.expectation_type = true ∧ pyHashable d.column = true) →
    ∃ acc2, List.foldlM failAccStep acc details = .ok acc2 ∧
      acc2.critical_failures = acc.critical_failures ++
        (((details.filter (fun d => d.status == "FAIL")).filter
            (fun d => pyEq d.severity (.str "critical"))).map bucketEntryOf) := by
  induction details with
  | nil => exact fun acc h => ⟨acc, rfl, by simp⟩
  | cons d rest ih =>
      intro acc h
      by_cases hf : d.status = "FAIL"
      · obtain ⟨hty, hcol⟩ := h d (by simp) hf
        rw [List.foldlM_cons, failAccStep_fail acc d hf hty hcol, ebind_ok]
        obtain ⟨acc2, hacc2, hcrit⟩ := ih _ (fun x hx hxf => h x (by simp [hx]) hxf)
        refine ⟨acc2, hacc2, ?_⟩
        rw [hcrit]
        rcases Bool.eq_false_or_eq_true (pyEq d.severity (.str "critical")) with
            hcr | hcr <;>
          simp [List.filter_cons, hf, hcr]
      · rw [List.foldlM_cons, failAccStep_pass acc d hf, ebind_ok]
        obtain ⟨acc2, hacc2, hcrit⟩ := ih acc (fun x hx hxf => h x (by simp [hx]) hxf)
        refine ⟨acc2, hacc2, ?_⟩
        rw [hcrit]
        simp [List.filter_cons, hf]

theorem detailSortKey_ok (d : ExpectationDetail) (h : d.failure_info.isSome = true) :
    detailSortKey d = .ok (detailKeyOf d) := by
  cases hf : d.failure_info <;> simp_all [detailSortKey, detailKeyOf]

theorem emap_ok {α β : Type} (f : α → β) (a : α) :
    Except.map f (Except.ok a : Except String α) = .ok (f a) := rfl

theorem exceptMapList_sortKeys (l : List ExpectationDetail)
    (h : ∀ d ∈ l, d.failure_info.isSome = true) :
    exceptMapList (fun d => (detailSortKey d).map (fun k => (d, k))) l =
      .ok (l.map (fun d => (d, detailKeyOf d))) := by
  induction l with
  | nil => rfl
  | cons d l ih =>
      have hd := detailSortKey_ok d (h d (by simp))
      have hrest := ih (fun x hx => h x (by simp [hx]))
      simp only [exceptMapList, hd, emap_ok, ebind_ok, hrest, List.map_cons]

theorem pySortDesc_ok (l : List ExpectationDetail)
    (h : ∀ d ∈ l, d.failure_info.isSome = true ∧
      (detailKeyOf d).asNumber.isSome = true) :
    ∃ out, pySortDescByPct l = .ok out := by
  unfold pySortDescByPct
  rw [exceptMapList_sortKeys l (fun d hd => (h d hd).1), ebind_ok]
  by_cases hlen : (l.map fun d => (d, detailKeyOf d)).length ≤ 1
  · rw [if_pos hlen]
    exact ⟨_, rfl⟩
  · rw [if_neg hlen]
    have hall : ((l.map fun d => (d, detailKeyOf d)).all
        (fun p => p.2.asNumber.isSome)) = true := by
      rw [List.all_eq_true]
      intro p hp
      rw [List.mem_map] at hp
      obtain ⟨d, hd, rfl⟩ := hp
      exact (h d hd).2
    simp only [hall, ite_true]
    exact ⟨_, rfl⟩

theorem pySortDesc_pair (d1 d2 : ExpectationDetail) (q1 q2 : Rat)
    (h1 : d1.failure_info.isSome = true) (h2 : d2.failure_info.isSome = true)
    (hk1 : detailKeyOf d1 = .float q1) (hk2 : detailKeyOf d2 = .float q2) :
    pySortDescByPct [d1, d2] = .ok (if q2 ≤ q1 then [d1, d2] else [d2, d1]) := by
  have hmem : ∀ d ∈ [d1, d2], d.failure_info.isSome = true := by
    intro d hd
    rcases List.mem_cons.mp hd with rfl | hd2
    · exact h1
    · rcases List.mem_cons.mp hd2 with rfl | hd3
      · exact h2
      · cases hd3
  unfold pySortDescByPct
  rw [exceptMapList_sortKeys [d1, d2] hmem, ebind_ok]
  rcases le_or_lt q2 q1 with hq | hq
  · simp [hk1, hk2, PyVal.asNumber, stableSort, insertBefore, hq]
  · simp [hk1, hk2, PyVal.asNumber, stableSort, insertBefore, hq, not_le.mpr hq,
      le_of_lt hq]

theorem buildFailureSummary_spec (details : List ExpectationDetail)
    (h : ∀ d ∈ details, d.status = "FAIL" →
      pyHashable d.expectation_type = true ∧ pyHashable d.column = true ∧
      ∃ fi, d.failure_info = some fi ∧
        fi.invalid_percentage.asNumber.isSome = true) :
    ∃ fsum sorted, buildFailureSummary details = .ok fsum ∧
      pySortDescByPct (details.filter
        (fun d => d.status == "FAIL" && d.failure_info.isSome)) = .ok sorted ∧
      fsum.most_common_failures = sorted.take 5 ∧
      fsum.critical_failures =
        (((details.filter (fun d => d.status == "FAIL")).filter
            (fun d => pyEq d.severity (.str "critical"))).map bucketEntryOf) := by
  obtain ⟨acc2, hacc2, hcrit⟩ := failAcc_foldlM details
    { failed_by_type := [], failed_by_column := [], critical_failures := []
      warning_failures := [], info_failures := [] }
    (fun d hd hdf => ⟨((h d hd hdf).1), ((h d hd hdf).2.1)⟩)
  have hfailedprops : ∀ d ∈ details.filter
      (fun d => d.status == "FAIL" && d.failure_info.isSome),
      d.failure_info.isSome = true ∧ (detailKeyOf d).asNumber.isSome = true := by
    intro d hd
    rw [List.mem_filter, Bool.and_eq_true] at hd
    have hdm := hd.1
    have hdf := hd.2.1
    have hdi := hd.2.2
    obtain ⟨fi, hfi, hnum⟩ := (h d hdm (by simpa using hdf)).2.2
    exact ⟨hdi, by simp [detailKeyOf, hfi, hnum]⟩
  obtain ⟨sorted, hsorted⟩ := pySortDesc_ok _ hfailedprops
  unfold buildFailureSummary
  simp only [hacc2, ebind_ok, hsorted]
  exact ⟨_, sorted, rfl, rfl, rfl, by simpa using hcrit⟩

theorem pyLen_list (xs : List PyVal) : pyLen (.list xs) = .ok xs.length := rfl

theorem pyResultsEntries_list (xs : List PyVal) :
    pyResultsEntries (.list xs) = .ok xs := rfl

/-- On a well-shaped payload the analyzer returns a report whose detail list
has exactly one record (`detailOf`, defaults included) per raw result entry,
whose failed-expectations count is the payload's statistics value, and whose
failure summary is the categorization of those detail records. -/
theorem analyze_ok_of_wellShaped (p : PyVal) (h : payloadWellShaped p = true) :
    ∃ r, analyze_validation_results p = .ok r ∧
      r.expectation_details = (resultsOf p).map detailOf ∧
      r.executive_summary.failed_expectations = statsUnsuccessful p ∧
      buildFailureSummary ((resultsOf p).map detailOf) = .ok r.failure_summary := by
  obtain ⟨fs, rfl⟩ : ∃ fs, p = .obj fs := by
    cases p <;> simp_all [payloadWellShaped]
  unfold payloadWellShaped at h
  simp only [Bool.and_eq_true] at h
  obtain ⟨⟨hstat, hmeta⟩, hrescase⟩ := h
  obtain ⟨sfs, hsfs⟩ := isObj_exists _ (fieldIsObj_objGetD fs "statistics" hstat)
  obtain ⟨mfs, hmfs⟩ := isObj_exists _ (fieldIsObj_objGetD fs "meta" hmeta)
  simp only [objGetD] at hsfs hmfs
  obtain ⟨xs, hxs, hxsw⟩ : ∃ xs, (PyDict.get? fs "results").getD (.list []) = .list xs ∧
      ∀ v ∈ xs, entryWellShaped v = true := by
    cases hres : PyDict.get? fs "results" with
    | none => exact ⟨[], by simp [hres], by simp⟩
    | some w =>
        rw [hres] at hrescase
        cases w
        case list xs =>
          exact ⟨xs, by simp,
            by rw [List.all_eq_true] at hrescase; exact hrescase⟩
        all_goals exact absurd hrescase (by simp)
  have hresOf : resultsOf (.obj fs) = xs := by
    simp [resultsOf, objGetD, hxs]
  have hdetails : ∀ d ∈ xs.map detailOf, d.status = "FAIL" →
      pyHashable d.expectation_type = true ∧ pyHashable d.column = true ∧
      ∃ fi, d.failure_info = some fi ∧
        fi.invalid_percentage.asNumber.isSome = true := by
    intro d hd hdf
    rw [List.mem_map] at hd
    obtain ⟨v, hv, rfl⟩ := hd
    obtain ⟨⟨s, hty⟩, hcol, hfail⟩ := detailOf_shape v (hxsw v hv)
    refine ⟨by simp [hty, pyHashable], ?_, hfail hdf⟩
    rcases hcol with hc | ⟨s2, hc⟩ <;> simp [hc, pyHashable]
  obtain ⟨fsum, sorted, hbfs, hsorted, hmost, hcrit⟩ :=
    buildFailureSummary_spec (xs.map detailOf) hdetails
  have hmapxs := exceptMapList_processResult xs hxsw
  unfold analyze_validation_results
  simp only [pyGetD_obj, ebind_ok, hxs, hsfs, hmfs, pyLen_list,
    pyResultsEntries_list, hmapxs, hbfs]
  refine ⟨_, rfl, by simp [hresOf], ?_, ?_⟩
  · simp [statsUnsuccessful, objGetD, hsfs]
  · rw [hresOf]
    exact hbfs

theorem resultsOf_wellShaped (p : PyVal) (h : payloadWellShaped p = true) :
    ∀ v ∈ resultsOf p, entryWellShaped v = true := by
  obtain ⟨fs, rfl⟩ : ∃ fs, p = .obj fs := by
    cases p <;> simp_all [payloadWellShaped]
  unfold payloadWellShaped at h
  simp only [Bool.and_eq_true] at h
  have hrescase := h.2
  cases hres : PyDict.get? fs "results" with
  | none =>
      intro v hv
      simp [resultsOf, objGetD, hres] at hv
  | some w =>
      rw [hres] at hrescase
      cases w
      case list xs =>
        intro v hv
        simp only [resultsOf, objGetD, hres, Option.getD_some] at hv
        rw [List.all_eq_true] at hrescase
        exact hrescase v hv
      all_goals exact absurd hrescase (by simp)

/-- The conditions `buildFailureSummary` needs, for the detail records of a
well-shaped payload's entries. -/
theorem mapDetail_conditions (p : PyVal) (h : payloadWellShaped p = true) :
    ∀ d ∈ (resultsOf p).map detailOf, d.status = "FAIL" →
      pyHashable d.expectation_type = true ∧ pyHashable d.column = true ∧
      ∃ fi, d.failure_info = some fi ∧
        fi.invalid_percentage.asNumber.isSome = true := by
  intro d hd hdf
  rw [List.mem_map] at hd
  obtain ⟨v, hv, rfl⟩ := hd
  obtain ⟨⟨s, hty⟩, hcol, hfail⟩ := detailOf_shape v (resultsOf_wellShaped p h v hv)
  refine ⟨by simp [hty, pyHashable], ?_, hfail hdf⟩
  rcases hcol with hc | ⟨s2, hc⟩ <;> simp [hc, pyHashable]

theorem detailOf_status_beq (v : PyVal) :
    ((detailOf v).status == "FAIL") = !pyTruthy (entrySuccess v) := by
  rcases Bool.eq_false_or_eq_true
      (pyTruthy (objGetD v "success" (.bool false))) with hs | hs <;>
    simp [detailOf, entrySuccess, hs]

theorem detailOf_isSome_beq (v : PyVal) :
    ((detailOf v).failure_info.isSome) = !pyTruthy (entrySuccess v) := by
  rcases Bool.eq_false_or_eq_true
      (pyTruthy (objGetD v "success" (.bool false))) with hs | hs <;>
    simp [detailOf, entrySuccess, hs]

theorem detailOf_severity (v : PyVal) :
    (detailOf v).severity = entrySeverity v := rfl

theorem detailOf_key_fail (v : PyVal) (h : pyTruthy (entrySuccess v) = false) :
    detailKeyOf (detailOf v) = entryPct v := by
  unfold entrySuccess at h
  simp [detailOf, detailKeyOf, failureInfoOf, entryPct, h]

theorem detailOf_isSome_fail (v : PyVal) (h : pyTruthy (entrySuccess v) = false) :
    (detailOf v).failure_info.isSome = true := by
  rw [detailOf_isSome_beq, h]
  rfl

/-- C6.  For a well-shaped validation-run payload with five result entries of
which exactly two failed — with severities critical and warning, invalid
percentages 10.0 and 45.5, and the engine's matching statistics — the report
counts 2 failed expectations, has one critical failure, and lists
min 5 2 = 2 most-common failures sorted descending by invalid percentage. -/
theorem C6_analyzer_aggregation (p a b : PyVal)
    (hshape : payloadWellShaped p = true)
    (hlen : (resultsOf p).length = 5)
    (hfails : (resultsOf p).filter (fun v => !(pyTruthy (entrySuccess v))) = [a, b])
    (hsev : (entrySeverity a = .str "critical" ∧ entrySeverity b = .str "warning") ∨
            (entrySeverity a = .str "warning" ∧ entrySeverity b = .str "critical"))
    (hpct : (entryPct a = .float 10 ∧ entryPct b = .float (91 / 2)) ∨
            (entryPct a = .float (91 / 2) ∧ entryPct b = .float 10))
    (hstats : statsUnsuccessful p = .int 2) :
    ∃ r, analyze_validation_results p = .ok r ∧
      r.executive_summary.failed_expectations = .int 2 ∧
      r.failure_summary.critical_failures.length = 1 ∧
      r.failure_summary.most_common_failures.length = min 5 2 ∧
      r.failure_summary.most_common_failures.map detailKeyOf =
        [.float (91 / 2), .float 10] := by
  obtain ⟨r, hr, hdet, hfe, hbfs⟩ := analyze_ok_of_wellShaped p hshape
  have ha : pyTruthy (entrySuccess a) = false := by
    have hamem : a ∈ (resultsOf p).filter (fun v => !(pyTruthy (entrySuccess v))) := by
      rw [hfails]; simp
    simpa using (List.mem_filter.mp hamem).2
  have hb : pyTruthy (entrySuccess b) = false := by
    have hbmem : b ∈ (resultsOf p).filter (fun v => !(pyTruthy (entrySuccess v))) := by
      rw [hfails]; simp
    simpa using (List.mem_filter.mp hbmem).2
  have hfilter2 : (List.map detailOf (resultsOf p)).filter
      (fun d => d.status == "FAIL" && d.failure_info.isSome) =
      [detailOf a, detailOf b] := by
    rw [List.filter_map]
    have hcongr : (resultsOf p).filter
        ((fun d => d.status == "FAIL" && d.failure_info.isSome) ∘ detailOf) = [a, b] := by
      rw [← hfails]
      apply List.filter_congr
      intro v hv
      simp [Function.comp, detailOf_status_beq, detailOf_isSome_beq, Bool.and_self]
    rw [hcongr]
    rfl
  have hfilter1 : (List.map detailOf (resultsOf p)).filter
      (fun d => d.status == "FAIL") = [detailOf a, detailOf b] := by
    rw [List.filter_map]
    have hcongr : (resultsOf p).filter
        ((fun d => d.status == "FAIL") ∘ detailOf) = [a, b] := by
      rw [← hfails]
      apply List.filter_congr
      intro v hv
      simp [Function.comp, detailOf_status_beq]
    rw [hcongr]
    rfl
  obtain ⟨fsum, sorted, hbfs2, hsorted, hmost, hcrit⟩ :=
    buildFailureSummary_spec (List.map detailOf (resultsOf p))
      (mapDetail_conditions p hshape)
  have hfsum : fsum = r.failure_summary := by
    rw [hbfs] at hbfs2
    exact (Except.ok.inj hbfs2).symm
  rw [hfilter2] at hsorted
  rw [hfilter1] at hcrit
  refine ⟨r, hr, by rw [hfe, hstats], ?_, ?_, ?_⟩
  · rw [← hfsum, hcrit]
    rcases hsev with ⟨hsa, hsb⟩ | ⟨hsa, hsb⟩ <;>
      simp [detailOf_severity, hsa, hsb, pyEq, PyVal.asNumber]
  · rcases hpct with ⟨hpa, hpb⟩ | ⟨hpa, hpb⟩ <;>
    · have hka : detailKeyOf (detailOf a) = entryPct a := detailOf_key_fail a ha
      have hkb : detailKeyOf (detailOf b) = entryPct b := detailOf_key_fail b hb
      rw [hpa] at hka
      rw [hpb] at hkb
      have hpair := pySortDesc_pair (detailOf a) (detailOf b) _ _
        (detailOf_isSome_fail a ha) (detailOf_isSome_fail b hb) hka hkb
      rw [hpair] at hsorted
      have hsq := (Except.ok.inj hsorted)
      rw [← hfsum, hmost, ← hsq]
      norm_num
  · rcases hpct with ⟨hpa, hpb⟩ | ⟨hpa, hpb⟩ <;>
    · have hka : detailKeyOf (detailOf a) = entryPct a := detailOf_key_fail a ha
      have hkb : detailKeyOf (detailOf b) = entryPct b := detailOf_key_fail b hb
      rw [hpa] at hka
      rw [hpb] at hkb
      have hpair := pySortDesc_pair (detailOf a) (detailOf b) _ _
        (detailOf_isSome_fail a ha) (detailOf_isSome_fail b hb) hka hkb
      rw [hpair] at hsorted
      have hsq := (Except.ok.inj hsorted)
      rw [← hfsum, hmost, ← hsq]
      norm_num [hka, hkb]

/-- Witness for C6 at the five-entry sample payload. -/
theorem C6_analyzer_aggregation_witness :
    payloadWellShaped c6WitnessPayload = true ∧
    ∃ r, analyze_validation_results c6WitnessPayload = .ok r ∧
      r.executive_summary.failed_expectations = .int 2 ∧
      r.failure_summary.critical_failures.length = 1 ∧
      r.failure_summary.most_common_failures.length = min 5 2 ∧
      r.failure_summary.most_common_failures.map detailKeyOf =
        [.float (91 / 2), .float 10] :=
  ⟨rfl, C6_analyzer_aggregation c6WitnessPayload c6FailEntryCritical c6FailEntryWarning
    rfl rfl rfl (Or.inl ⟨rfl, rfl⟩) (Or.inl ⟨rfl, rfl⟩) rfl⟩

/-- Counterexample to C10 as stated: a payload that is a mapping whose
`results` value is a list of mappings, on which the analyzer nevertheless
raises (`meta` holds a number, and the chained `validation_time` lookup
calls `.get` on it). -/
theorem C10_counterexample :
    mappingWithResultsList c10CounterPayload = true ∧
    analyze_validation_results c10CounterPayload =
      .error "AttributeError: get on validation_time" :=
  ⟨rfl, rfl⟩

/-- C10 (amended).  On payloads whose nested fields are also well shaped
(statistics/meta mappings when present, each entry's config/meta/kwargs/result
mappings when present, scalar type/severity/column/percent fields), the
analyzer returns a report without raising, with exactly one detail record per
raw result entry, each being `detailOf` of its entry — absent fields replaced
by the documented defaults. -/
theorem C10_analyzer_totality (p : PyVal) (h : payloadWellShaped p = true) :
    ∃ r, analyze_validation_results p = .ok r ∧
      r.expectation_details = (resultsOf p).map detailOf ∧
      r.expectation_details.length = (resultsOf p).length := by
  obtain ⟨r, h1, h2, _, _⟩ := analyze_ok_of_wellShaped p h
  exact ⟨r, h1, h2, by rw [h2, List.length_map]⟩

/-- Witness for the amended C10 at a one-entry payload whose entry is an
empty mapping. -/
theorem C10_analyzer_totality_witness :
    payloadWellShaped c10WitnessPayload = true ∧
    ∃ r, analyze_validation_results c10WitnessPayload = .ok r ∧
      r.expectation_details = (resultsOf c10WitnessPayload).map detailOf ∧
      r.expectation_details.length = (resultsOf c10WitnessPayload).length :=
  ⟨rfl, C10_analyzer_totality c10WitnessPayload rfl⟩
